import Mathlib

/-!
Verification of the Metric Normalization & Scoring Engine of the openrank
backend (src/backend/app/services): the health snapshot scorer
(metric_engine.py), the composite series normalizer (composite_metrics.py)
and the readiness/fit scorer (newcomer_scoring.py).

Python floats are modelled by the rationals; the transcendental log1p is
modelled by an abstract parameter (a LogModel) carrying the one property the
engine relies on, satisfied by the real natural logarithm; the claims proved
below hold for every such model.  Python dictionaries with string keys are
modelled by association lists, Python raising by Except.
-/

/-- Model of a Python value as stored in a metrics dictionary: null (None),
booleans, numbers (floats and ints collapsed to rationals), strings and
nested string-keyed dictionaries. -/
inductive Val where
  | null : Val
  | bool (b : Bool) : Val
  | num (q : ℚ) : Val
  | str (s : String) : Val
  | obj (fields : List (String × Val)) : Val

/-- Python truthiness of a value: None, False, 0, the empty string and the
empty dict are falsy, everything else is truthy. -/
def pyTruthy : Val → Bool
  | Val.null => false
  | Val.bool b => b
  | Val.num q => decide (q ≠ 0)
  | Val.str s => decide (s ≠ "")
  | Val.obj fs => !fs.isEmpty

/-- True exactly on dictionary values (isinstance(v, dict)). -/
def isObjV : Val → Bool
  | Val.obj _ => true
  | _ => false

/-- The field list of a dictionary value, empty on non-dictionaries. -/
def objFields : Val → List (String × Val)
  | Val.obj fs => fs
  | _ => []

/-- Numeric value of a list of decimal digit characters. -/
def decDigitsVal (cs : List Char) : ℕ :=
  cs.foldl (fun a c => 10 * a + (c.toNat - 48)) 0

/-- Model of Python float(s) on strings: optional surrounding spaces, an
optional sign, a decimal literal with optional fractional part and optional
exponent.  (The inf/nan spellings are outside the model, which has no
infinities or NaNs.) -/
def parseFloatQ (s : String) : Option ℚ :=
  let cs0 := s.toList.dropWhile (fun c => c = ' ')
  let cs1 := (cs0.reverse.dropWhile (fun c => c = ' ')).reverse
  let sgnCs : ℚ × List Char :=
    match cs1 with
    | '-' :: t => (-1, t)
    | '+' :: t => (1, t)
    | t => (1, t)
  let sgn := sgnCs.1
  let ip := sgnCs.2.takeWhile Char.isDigit
  let rest1 := sgnCs.2.dropWhile Char.isDigit
  let fpRest : List Char × List Char :=
    match rest1 with
    | '.' :: t => (t.takeWhile Char.isDigit, t.dropWhile Char.isDigit)
    | t => ([], t)
  let fp := fpRest.1
  if ip.isEmpty && fp.isEmpty then none else
  let mant : ℚ := (decDigitsVal ip : ℚ) + (decDigitsVal fp : ℚ) / (10 : ℚ) ^ fp.length
  match fpRest.2 with
  | [] => some (sgn * mant)
  | e :: t =>
    if e = 'e' ∨ e = 'E' then
      let esgnT : ℤ × List Char :=
        match t with
        | '-' :: t2 => (-1, t2)
        | '+' :: t2 => (1, t2)
        | t2 => (1, t2)
      let ed := esgnT.2.takeWhile Char.isDigit
      let rest2 := esgnT.2.dropWhile Char.isDigit
      if ed.isEmpty ∨ rest2 ≠ [] then none
      else some (sgn * mant * (10 : ℚ) ^ (esgnT.1 * (decDigitsVal ed : ℤ)))
    else none

/-- Model of Python str.lower(): character-wise lower-casing.  (This is
String.toLower spelled char-by-char, so that it computes by reduction.) -/
def strLower (s : String) : String := String.mk (s.toList.map Char.toLower)

/-- Model of Python float(v) on an arbitrary value: numbers pass through,
booleans become 0/1, strings are parsed, everything else fails (raises,
which every caller in the engine catches). -/
def toFloatQ : Val → Option ℚ
  | Val.num q => some q
  | Val.bool b => some (if b then 1 else 0)
  | Val.str s => parseFloatQ s
  | _ => none

/-- A metrics dictionary: string keys to values.  Keys are unique in a
Python dict; lookup takes the first binding. -/
def Metrics := List (String × Val)

/-- metrics.get(key): None both when the key is absent and when the stored
value is None (Python cannot tell the two apart through get). -/
def pyget (metrics : Metrics) (k : String) : Option Val :=
  match List.lookup k metrics with
  | some Val.null => none
  | o => o

/-- metrics.get(key) used in truthiness positions and or-chains, with the
absent case surfacing as None. -/
def pygetValD (metrics : Metrics) (k : String) : Val :=
  (List.lookup k metrics).getD Val.null

/-- Python x or y on two optional floats: y when x is None or 0.0. -/
def pyOrQ (a b : Option ℚ) : Option ℚ :=
  match a with
  | some q => if q = 0 then b else some q
  | none => b

/-- Python x or y on two values: y when x is falsy. -/
def pyOrVal (a b : Val) : Val :=
  if pyTruthy a then a else b

/-- The inner helper m(key) of MetricEngine.compute: read the key, try
float coercion, and on absence or coercion failure fall back to the
metric_-prefixed key; never raises. -/
def mget (metrics : Metrics) (key : String) : Option ℚ :=
  match (pyget metrics key).bind toFloatQ with
  | some q => some q
  | none =>
    if key.startsWith ("metric_") then none
    else (pyget metrics ("metric_" ++ key)).bind toFloatQ

/-- Model of the transcendental math.log1p: an abstract function carrying
the property the engine relies on (nonnegative on nonnegative inputs),
which the real natural logarithm satisfies.  Theorems below quantify over
every such model. -/
structure LogModel where
  log1p : ℚ → ℚ
  nonneg : ∀ x : ℚ, 0 ≤ x → 0 ≤ log1p x

/-- A concrete log model used to instantiate witnesses. -/
def logModelId : LogModel :=
  { log1p := fun x => x, nonneg := fun _ h => h }

/-- math.log1p as a fallible call: raises ValueError (math domain error)
when the argument is at most -1, which no caller in the engine catches. -/
def pyLog1p (L : LogModel) (x : ℚ) : Except String ℚ :=
  if x ≤ -1 then Except.error ("math domain error") else Except.ok (L.log1p x)

namespace MetricEngine

/-- MetricEngine._safe: a None float becomes 0.0. -/
def safe (v : Option ℚ) : ℚ := v.getD 0

/-- MetricEngine._clamp: clip to the range, None passed through.  (The NaN
branch of the source is vacuous here, the model has no NaN.) -/
def clamp (v : Option ℚ) (lo hi : ℚ) : Option ℚ :=
  v.map (fun x => max lo (min hi x))

/-- MetricEngine._log_score: None on a missing or nonpositive value, else
clamp(18 * log(1 + value)). -/
def log_score (L : LogModel) (value : Option ℚ) : Option ℚ :=
  match value with
  | none => none
  | some x => if x ≤ 0 then none else clamp (some (18 * L.log1p x)) 0 100

/-- MetricEngine._growth_score. -/
def growth_score (current previous : Option ℚ) : Option ℚ :=
  match current, previous with
  | some c, some p =>
    let g := max (-1) (min 2 ((c - p) / max 1 p))
    clamp (some (100 * (g + 1) / 3)) 0 100
  | _, _ => none

/-- MetricEngine._time_score: 100 at or below good, 0 at or beyond bad, a
clamped linear interpolation in between, None on a missing input. -/
def time_score (hours : Option ℚ) (good bad : ℚ) : Option ℚ :=
  match hours with
  | none => none
  | some h =>
    if h ≤ good then some 100
    else if bad ≤ h then some 0
    else clamp (some (100 * (bad - h) / (bad - good))) 0 100

/-- MetricEngine._weighted_avg: None when the full weight list sums to at
most 0; otherwise drop pairs with a None score, None again when no weight
survives, else the sum of score*weight divided by the surviving weight. -/
def weighted_avg (scores : List (Option ℚ)) (weights : List ℚ) : Option ℚ :=
  if weights.sum ≤ 0 then none
  else
    let p := (scores.zip weights).foldl
      (fun acc sw =>
        match sw.1 with
        | none => acc
        | some s => (acc.1 + s * sw.2, acc.2 + sw.2))
      ((0 : ℚ), (0 : ℚ))
    if p.2 = 0 then none else some (p.1 / p.2)

/-- The seven well-known governance files of MetricEngine._coverage_score. -/
def sevenGovKeys : List String :=
  ["readme", "license", "contributing", "code_of_conduct", "security",
   "issue_template", "pull_request_template"]

/-- Lookup in a dict built by a comprehension: a later duplicate key
overwrites an earlier one. -/
def dictGetB (l : List (String × Bool)) (k : String) : Option Bool :=
  List.lookup k l.reverse

/-- MetricEngine._coverage_score on the normalized (lower-cased, boolean)
file flags: 0 on an empty mapping, else 100 * hits / 7 over the seven
well-known governance files. -/
def coverage_score (files : List (String × Bool)) : ℚ :=
  if files = [] then 0
  else
    let normalized := files.map (fun kv => (strLower kv.1, kv.2))
    100 * ((sevenGovKeys.countP (fun k => (dictGetB normalized k).getD false) : ℕ) : ℚ) / 7

/-- The lower-cased boolean normalization of a governance-files dict. -/
def normalizedBools (fs : List (String × Val)) : List (String × Bool) :=
  fs.map (fun kv => (strLower kv.1, pyTruthy kv.2))

/-- The value MetricEngine._transparency_bonus computes once past its
attribute access: 100 when readme, license and contributing are all present
together with at least one template, else the coverage ratio. -/
def transparency_core (files : Val) : ℚ :=
  let normalized := if pyTruthy files then normalizedBools (objFields files) else []
  let hasCore := (["readme", "license", "contributing"]).all
    (fun k => (dictGetB normalized k).getD false)
  let hasTemplates := (dictGetB normalized ("issue_template")).getD false
    || (dictGetB normalized ("pull_request_template")).getD false
  if hasCore && hasTemplates then 100 else coverage_score normalized

/-- MetricEngine._transparency_bonus: raises AttributeError when handed a
truthy non-dict (files.items() on it), else the transparency value. -/
def transparency_bonus (files : Val) : Except String ℚ :=
  if pyTruthy files && !isObjV files then Except.error ("AttributeError")
  else Except.ok (transparency_core files)

/-- The per-check score extraction of MetricEngine._critical_security_score:
a dict with a score key contributes float(score)*10 when the coercion
succeeds, any other value contributes float(value)*10 when that succeeds,
failures are skipped. -/
def checkScore (v : Val) : Option ℚ :=
  match v with
  | Val.obj fs =>
    match List.lookup ("score") fs.reverse with
    | some sv => (toFloatQ sv).map (fun q => q * 10)
    | none => none
  | _ => (toFloatQ v).map (fun q => q * 10)

/-- The value MetricEngine._critical_security_score computes once past its
attribute access: None on a falsy payload or when no check yields a score,
else the clamped mean of the per-check scores. -/
def critical_core (checks : Val) : Option ℚ :=
  if !pyTruthy checks then none
  else
    let scores := (objFields checks).filterMap (fun kv => checkScore kv.2)
    if scores = [] then none
    else clamp (some (scores.sum / (scores.length : ℚ))) 0 100

/-- MetricEngine._critical_security_score: raises AttributeError on a truthy
non-dict payload (checks.values() on it), else the clamped mean. -/
def critical_security_score (checks : Val) : Except String (Option ℚ) :=
  if pyTruthy checks && !isObjV checks then Except.error ("AttributeError")
  else Except.ok (critical_core checks)

end MetricEngine

namespace MetricEngine

/-- The HealthOverviewRecord dataclass returned (as a dict) by
MetricEngine.compute: five dimension scores, an overall health score, the
dimension sub-scores, and the raw metric values kept for traceability. -/
structure HealthOverviewRecord where
  repo_full_name : Val
  dt : Val
  score_health : Option ℚ
  score_vitality : Option ℚ
  score_responsiveness : Option ℚ
  score_resilience : Option ℚ
  score_governance : Option ℚ
  score_security : Option ℚ
  score_vitality_influence : Option ℚ
  score_vitality_momentum : Option ℚ
  score_vitality_community : Option ℚ
  score_vitality_growth : Option ℚ
  score_resp_first : Option ℚ
  score_resp_close : Option ℚ
  score_resp_backlog : Option ℚ
  score_res_bf : Option ℚ
  score_res_diversity : Option ℚ
  score_res_retention : Option ℚ
  score_gov_files : Option ℚ
  score_gov_process : Option ℚ
  score_gov_transparency : Option ℚ
  score_sec_base : Option ℚ
  score_sec_critical : Option ℚ
  score_sec_bonus : Option ℚ
  metric_openrank : Option ℚ
  metric_activity : Option ℚ
  metric_attention : Option ℚ
  metric_technical_fork : Option ℚ
  metric_community_openrank : Option ℚ
  metric_participants : Option ℚ
  metric_new_contributors : Option ℚ
  metric_activity_3m : Option ℚ
  metric_activity_prev_3m : Option ℚ
  metric_activity_growth : Option ℚ
  metric_active_months_12m : Option ℚ
  metric_change_requests : Option ℚ
  metric_change_requests_accepted : Option ℚ
  metric_change_requests_reviews : Option ℚ
  metric_change_request_response_time : Option ℚ
  metric_change_request_resolution_duration : Option ℚ
  metric_change_request_age : Option ℚ
  metric_code_change_lines_add : Option ℚ
  metric_code_change_lines_remove : Option ℚ
  metric_code_change_lines_sum : Option ℚ
  metric_code_change_lines : Option ℚ
  metric_issue_response_time : Option ℚ
  metric_issue_resolution_duration : Option ℚ
  metric_issue_age : Option ℚ
  metric_issues_closed : Option ℚ
  metric_active_dates_and_times : Val
  metric_activity_details : Val
  metric_contributors : Option ℚ
  metric_contributors_detail : Val
  metric_stars : Option ℚ
  metric_stars_growth : Val
  metric_stars_growth_rate : Val
  metric_issue_response_time_h : Option ℚ
  metric_issue_resolution_duration_h : Option ℚ
  metric_issue_age_h : Option ℚ
  metric_issues_new : Option ℚ
  metric_pr_response_time_h : Option ℚ
  metric_pr_resolution_duration_h : Option ℚ
  metric_pr_age_h : Option ℚ
  metric_prs_new : Option ℚ
  metric_bus_factor : Option ℚ
  metric_hhi : Option ℚ
  metric_top1_share : Option ℚ
  metric_inactive_contributors : Option ℚ
  metric_retention_rate : Option ℚ
  metric_governance_files : Val
  metric_github_health_percentage : Option ℚ
  metric_scorecard_score : Option ℚ
  metric_scorecard_checks : Val
  metric_security_defaulted : Bool
  raw_payloads : Val

/-- rec.metric_activity. -/
def mActivity (m : Metrics) : Option ℚ := mget m ("activity")

/-- rec.metric_participants: the participants_3m / participants /
metric_participants or-chain of compute. -/
def mParticipants (m : Metrics) : Option ℚ :=
  pyOrQ (pyOrQ (mget m ("participants_3m")) (mget m ("participants")))
    (mget m ("metric_participants"))

/-- rec.metric_new_contributors or-chain. -/
def mNewContributors (m : Metrics) : Option ℚ :=
  pyOrQ (pyOrQ (mget m ("new_contributors_3m")) (mget m ("new_contributors")))
    (mget m ("metric_new_contributors"))

/-- score_vitality_influence = log_score(openrank). -/
def scoreVitalityInfluence (L : LogModel) (m : Metrics) : Option ℚ :=
  log_score L (mget m ("openrank"))

/-- score_vitality_momentum = log_score(activity_3m). -/
def scoreVitalityMomentum (L : LogModel) (m : Metrics) : Option ℚ :=
  log_score L (mget m ("activity_3m"))

/-- score_vitality_community: 0.7 * participants-score + 0.3 *
new-contributors-score once either side is present, the missing side
entering as 0. -/
def scoreVitalityCommunity (L : LogModel) (m : Metrics) : Option ℚ :=
  let part := log_score L (mParticipants m)
  let nw := log_score L (mNewContributors m)
  if part.isSome || nw.isSome then some (0.7 * safe part + 0.3 * safe nw) else none

/-- rec.metric_activity_growth = growth_score(activity_3m, activity_prev_3m). -/
def activityGrowth (m : Metrics) : Option ℚ :=
  growth_score (mget m ("activity_3m")) (mget m ("activity_prev_3m"))

/-- The sustain side of vitality growth: clamp(100 * active_months_12m / 12)
when present. -/
def sustainScore (m : Metrics) : Option ℚ :=
  clamp ((mget m ("active_months_12m")).map (fun am => 100 * am / 12)) 0 100

/-- score_vitality_growth: 0.6 * growth + 0.4 * sustain once either side is
present, the missing side entering as 0. -/
def scoreVitalityGrowth (m : Metrics) : Option ℚ :=
  if (activityGrowth m).isSome || (sustainScore m).isSome then
    some (0.6 * safe (activityGrowth m) + 0.4 * safe (sustainScore m))
  else none

/-- score_vitality: the 0.30/0.40/0.20/0.10 weighted average of the four
vitality sub-scores. -/
def scoreVitality (L : LogModel) (m : Metrics) : Option ℚ :=
  weighted_avg
    [scoreVitalityInfluence L m, scoreVitalityMomentum L m,
     scoreVitalityCommunity L m, scoreVitalityGrowth m]
    [0.30, 0.40, 0.20, 0.10]

/-- rec.metric_issues_new. -/
def mIssuesNew (m : Metrics) : Option ℚ := mget m ("issues_new")

/-- rec.metric_prs_new or-chain. -/
def mPrsNew (m : Metrics) : Option ℚ :=
  pyOrQ (mget m ("prs_new")) (mget m ("change_requests_new"))

/-- The issue-channel weight w_i = log1p(safe(issues_new)) of the
responsiveness blend (its value on the non-raising path). -/
def wI (L : LogModel) (m : Metrics) : ℚ := L.log1p (safe (mIssuesNew m))

/-- The PR-channel weight w_p = log1p(safe(prs_new)). -/
def wP (L : LogModel) (m : Metrics) : ℚ := L.log1p (safe (mPrsNew m))

/-- issue_first = time_score(issue_response_time_h, 24, 168). -/
def issueFirst (m : Metrics) : Option ℚ :=
  time_score (mget m ("issue_response_time_h")) 24 168

/-- rec.metric_pr_response_time_h or-chain. -/
def prResponseTime (m : Metrics) : Option ℚ :=
  pyOrQ (mget m ("pr_response_time_h")) (mget m ("change_request_response_time_h"))

/-- pr_first = time_score(pr_response_time_h, 12, 120). -/
def prFirst (m : Metrics) : Option ℚ := time_score (prResponseTime m) 12 120

/-- issue_close = time_score(issue_resolution_duration_h, 72, 720). -/
def issueClose (m : Metrics) : Option ℚ :=
  time_score (mget m ("issue_resolution_duration_h")) 72 720

/-- rec.metric_pr_resolution_duration_h or-chain. -/
def prResolution (m : Metrics) : Option ℚ :=
  pyOrQ (mget m ("pr_resolution_duration_h"))
    (mget m ("change_request_resolution_duration_h"))

/-- pr_close = time_score(pr_resolution_duration_h, 48, 720). -/
def prClose (m : Metrics) : Option ℚ := time_score (prResolution m) 48 720

/-- issue_age = time_score(issue_age_h, 168, 2160). -/
def issueAge (m : Metrics) : Option ℚ := time_score (mget m ("issue_age_h")) 168 2160

/-- rec.metric_pr_age_h or-chain. -/
def prAgeH (m : Metrics) : Option ℚ :=
  pyOrQ (mget m ("pr_age_h")) (mget m ("change_request_age_h"))

/-- pr_age = time_score(pr_age_h, 168, 2160). -/
def prAge (m : Metrics) : Option ℚ := time_score (prAgeH m) 168 2160

/-- score_resp_first: issue/PR first-response scores blended by the
channel weights. -/
def scoreRespFirst (L : LogModel) (m : Metrics) : Option ℚ :=
  weighted_avg [issueFirst m, prFirst m] [wI L m, wP L m]

/-- score_resp_close. -/
def scoreRespClose (L : LogModel) (m : Metrics) : Option ℚ :=
  weighted_avg [issueClose m, prClose m] [wI L m, wP L m]

/-- score_resp_backlog. -/
def scoreRespBacklog (L : LogModel) (m : Metrics) : Option ℚ :=
  weighted_avg [issueAge m, prAge m] [wI L m, wP L m]

/-- score_responsiveness: the 0.45/0.35/0.20 blend of the three
responsiveness sub-scores, replaced by the 50.0 fallback when it is None
while the raw activity metric is positive. -/
def scoreResponsiveness (L : LogModel) (m : Metrics) : Option ℚ :=
  match weighted_avg [scoreRespFirst L m, scoreRespClose L m, scoreRespBacklog L m]
      [0.45, 0.35, 0.20] with
  | none => if 0 < safe (mActivity m) then some 50 else none
  | s => s

/-- score_res_bf = clamp(safe(bus_factor) * 20). -/
def scoreResBf (m : Metrics) : Option ℚ :=
  clamp (some (safe (mget m ("bus_factor")) * 20)) 0 100

/-- diversity_source: hhi when present, else top1_share. -/
def diversitySource (m : Metrics) : Option ℚ :=
  match mget m ("hhi") with
  | some q => some q
  | none => mget m ("top1_share")

/-- score_res_diversity = clamp(100 * (1 - diversity_source)) when a source
is present. -/
def scoreResDiversity (m : Metrics) : Option ℚ :=
  clamp ((diversitySource m).map (fun ds => 100 * (1 - ds))) 0 100

/-- score_res_retention: clamp(100 * retention_rate) when given, else
derived from inactive contributors over participants when participants are
positive. -/
def scoreResRetention (m : Metrics) : Option ℚ :=
  match mget m ("retention_rate") with
  | some rr => clamp (some (100 * rr)) 0 100
  | none =>
    if 0 < safe (mParticipants m) then
      clamp (some (100 * (1 - safe (mget m ("inactive_contributors"))
        / max 1 (safe (mParticipants m))))) 0 100
    else none

/-- score_resilience: the 0.45/0.35/0.20 blend of bus factor, diversity and
retention. -/
def scoreResilience (m : Metrics) : Option ℚ :=
  weighted_avg [scoreResBf m, scoreResDiversity m, scoreResRetention m]
    [0.45, 0.35, 0.20]

/-- The governance_files payload or-chain of compute. -/
def governanceFilesVal (m : Metrics) : Val :=
  pyOrVal (pyOrVal (pygetValD m ("metric_governance_files"))
    (pygetValD m ("governance_files"))) (Val.obj [])

/-- score_gov_files = clamp(github_health_percentage). -/
def scoreGovFiles (m : Metrics) : Option ℚ :=
  clamp (mget m ("github_health_percentage")) 0 100

/-- score_gov_process: 0.6 * first-response + 0.4 * close blend once either
responsiveness sub-score is present. -/
def scoreGovProcess (L : LogModel) (m : Metrics) : Option ℚ :=
  if (scoreRespFirst L m).isSome || (scoreRespClose L m).isSome then
    some (0.6 * safe (scoreRespFirst L m) + 0.4 * safe (scoreRespClose L m))
  else none

/-- score_gov_transparency = transparency bonus of the governance files. -/
def scoreGovTransparency (m : Metrics) : Option ℚ :=
  some (transparency_core (governanceFilesVal m))

/-- score_governance: the 0.45/0.35/0.20 blend, with the vitality-derived
fallback of compute when the blend is None. -/
def scoreGovernance (L : LogModel) (m : Metrics) : Option ℚ :=
  match weighted_avg [scoreGovFiles m, scoreGovProcess L m, scoreGovTransparency m]
      [0.45, 0.35, 0.20] with
  | none => clamp (some (safe (scoreVitality L m) * 0.8 + 20)) 0 100
  | s => s

/-- The security_defaulted flag: truthiness of the raw
metric_security_defaulted entry. -/
def securityDefaulted (m : Metrics) : Bool :=
  pyTruthy (pygetValD m ("metric_security_defaulted"))

/-- The scorecard checks payload or-chain of compute. -/
def scorecardChecksVal (m : Metrics) : Val :=
  pyOrVal (pyOrVal (pygetValD m ("metric_scorecard_checks"))
    (pygetValD m ("scorecard_checks"))) (Val.obj [])

/-- score_sec_base: the fixed 50 under the security_defaulted fallback, else
clamp(safe(scorecard_score) * 10). -/
def scoreSecBase (m : Metrics) : Option ℚ :=
  if securityDefaulted m then some 50
  else clamp (some (safe (mget m ("scorecard_score")) * 10)) 0 100

/-- score_sec_critical: None under the fallback, else the clamped mean of
the named check scores. -/
def scoreSecCritical (m : Metrics) : Option ℚ :=
  if securityDefaulted m then none else critical_core (scorecardChecksVal m)

/-- score_sec_bonus: 0 under the fallback, else the flat 10. -/
def scoreSecBonus (m : Metrics) : Option ℚ :=
  if securityDefaulted m then some 0 else some 10

/-- score_security: the fixed 50 under the fallback, else the 0.7/0.2/0.1
weighted average with the 60 substitute when that is None. -/
def scoreSecurity (m : Metrics) : Option ℚ :=
  if securityDefaulted m then some 50
  else
    match weighted_avg [scoreSecBase m, scoreSecCritical m, scoreSecBonus m]
        [0.7, 0.2, 0.1] with
    | none => some 60
    | s => s

/-- score_health: the 0.30/0.25/0.20/0.15/0.10 weighted average of the five
dimension scores. -/
def scoreHealth (L : LogModel) (m : Metrics) : Option ℚ :=
  weighted_avg
    [scoreVitality L m, scoreResponsiveness L m, scoreResilience m,
     scoreGovernance L m, scoreSecurity m]
    [0.30, 0.25, 0.20, 0.15, 0.10]

/-- rec.metric_stars_growth: m("stars_growth") or the raw
metric_stars_growth entry (the raw value survives when the parsed one is
falsy). -/
def starsGrowthVal (m : Metrics) : Val :=
  match mget m ("stars_growth") with
  | some q => if q = 0 then pygetValD m ("metric_stars_growth") else Val.num q
  | none => pygetValD m ("metric_stars_growth")

/-- rec.metric_stars_growth_rate, same shape. -/
def starsGrowthRateVal (m : Metrics) : Val :=
  match mget m ("stars_growth_rate") with
  | some q => if q = 0 then pygetValD m ("metric_stars_growth_rate") else Val.num q
  | none => pygetValD m ("metric_stars_growth_rate")

/-- The record MetricEngine.compute builds on its non-raising paths: every
field in the order the source assigns them. -/
def computeRecord (L : LogModel) (m : Metrics) : HealthOverviewRecord where
  repo_full_name := (List.lookup ("repo_full_name") m).getD (Val.str ("unknown"))
  dt := (List.lookup ("dt") m).getD Val.null
  score_health := scoreHealth L m
  score_vitality := scoreVitality L m
  score_responsiveness := scoreResponsiveness L m
  score_resilience := scoreResilience m
  score_governance := scoreGovernance L m
  score_security := scoreSecurity m
  score_vitality_influence := scoreVitalityInfluence L m
  score_vitality_momentum := scoreVitalityMomentum L m
  score_vitality_community := scoreVitalityCommunity L m
  score_vitality_growth := scoreVitalityGrowth m
  score_resp_first := scoreRespFirst L m
  score_resp_close := scoreRespClose L m
  score_resp_backlog := scoreRespBacklog L m
  score_res_bf := scoreResBf m
  score_res_diversity := scoreResDiversity m
  score_res_retention := scoreResRetention m
  score_gov_files := scoreGovFiles m
  score_gov_process := scoreGovProcess L m
  score_gov_transparency := scoreGovTransparency m
  score_sec_base := scoreSecBase m
  score_sec_critical := scoreSecCritical m
  score_sec_bonus := scoreSecBonus m
  metric_openrank := mget m ("openrank")
  metric_activity := mActivity m
  metric_attention := mget m ("attention")
  metric_technical_fork := mget m ("technical_fork")
  metric_community_openrank := mget m ("community_openrank")
  metric_participants := mParticipants m
  metric_new_contributors := mNewContributors m
  metric_activity_3m := mget m ("activity_3m")
  metric_activity_prev_3m := mget m ("activity_prev_3m")
  metric_activity_growth := activityGrowth m
  metric_active_months_12m := mget m ("active_months_12m")
  metric_change_requests := mget m ("change_requests")
  metric_change_requests_accepted := mget m ("change_requests_accepted")
  metric_change_requests_reviews := mget m ("change_requests_reviews")
  metric_change_request_response_time := mget m ("change_request_response_time")
  metric_change_request_resolution_duration := mget m ("change_request_resolution_duration")
  metric_change_request_age := mget m ("change_request_age")
  metric_code_change_lines_add := mget m ("code_change_lines_add")
  metric_code_change_lines_remove := mget m ("code_change_lines_remove")
  metric_code_change_lines_sum := mget m ("code_change_lines_sum")
  metric_code_change_lines := mget m ("code_change_lines")
  metric_issue_response_time := mget m ("issue_response_time")
  metric_issue_resolution_duration := mget m ("issue_resolution_duration")
  metric_issue_age := mget m ("issue_age")
  metric_issues_closed := mget m ("issues_closed")
  metric_active_dates_and_times :=
    pyOrVal (pygetValD m ("metric_active_dates_and_times"))
      (pygetValD m ("active_dates_and_times"))
  metric_activity_details :=
    pyOrVal (pygetValD m ("metric_activity_details"))
      (pygetValD m ("activity_details"))
  metric_contributors := mget m ("contributors")
  metric_contributors_detail :=
    pyOrVal (pyOrVal (pygetValD m ("metric_contributors_detail"))
      (pygetValD m ("contributors_detail"))) (Val.obj [])
  metric_stars := mget m ("stars")
  metric_stars_growth := starsGrowthVal m
  metric_stars_growth_rate := starsGrowthRateVal m
  metric_issue_response_time_h := mget m ("issue_response_time_h")
  metric_issue_resolution_duration_h := mget m ("issue_resolution_duration_h")
  metric_issue_age_h := mget m ("issue_age_h")
  metric_issues_new := mIssuesNew m
  metric_pr_response_time_h := prResponseTime m
  metric_pr_resolution_duration_h := prResolution m
  metric_pr_age_h := prAgeH m
  metric_prs_new := mPrsNew m
  metric_bus_factor := mget m ("bus_factor")
  metric_hhi := mget m ("hhi")
  metric_top1_share := mget m ("top1_share")
  metric_inactive_contributors := mget m ("inactive_contributors")
  metric_retention_rate := mget m ("retention_rate")
  metric_governance_files := governanceFilesVal m
  metric_github_health_percentage := mget m ("github_health_percentage")
  metric_scorecard_score := mget m ("scorecard_score")
  metric_scorecard_checks := scorecardChecksVal m
  metric_security_defaulted := securityDefaulted m
  raw_payloads := pyOrVal (pygetValD m ("raw_payloads")) (Val.obj [])

/-- MetricEngine.compute: the sequential body can raise at the two
log1p channel weights, at the transparency bonus, and (when the security
fallback is off) at the critical-checks mean; on the non-raising path it
returns the record. -/
def compute (L : LogModel) (m : Metrics) : Except String HealthOverviewRecord := do
  let _ ← pyLog1p L (safe (mIssuesNew m))
  let _ ← pyLog1p L (safe (mPrsNew m))
  let _ ← transparency_bonus (governanceFilesVal m)
  let _ ← (if securityDefaulted m then Except.ok none
           else critical_security_score (scorecardChecksVal m))
  Except.ok (computeRecord L m)

end MetricEngine

/-- Ascending sort of a rational list, as numpy and sorted() produce. -/
def sortedAsc (arr : List ℚ) : List ℚ :=
  arr.mergeSort (fun a b => decide (a ≤ b))

/-- Linear-interpolation indexing at a fractional position k into a sorted
list: the common formula behind np.percentile (default linear method) and
newcomer_scoring.percentile — arr[floor k] * (ceil k - k) + arr[ceil k] *
(k - floor k), collapsing to arr[k] at an integer position. -/
def interpAt (sa : List ℚ) (k : ℚ) : ℚ :=
  if Int.floor k = Int.ceil k then sa.getD (Int.floor k).toNat 0
  else sa.getD (Int.floor k).toNat 0 * ((Int.ceil k : ℚ) - k)
    + sa.getD (Int.ceil k).toNat 0 * (k - (Int.floor k : ℚ))

namespace Composite

/-- composite_metrics._clip01. -/
def clip01 (x : ℚ) : ℚ := max 0 (min 1 x)

/-- composite_metrics._percentiles: (0, 0) on an empty window, else the
10th and 90th percentile of the window by linear interpolation. -/
def percentiles (arr : List ℚ) : ℚ × ℚ :=
  if arr.isEmpty then (0, 0)
  else
    let a := sortedAsc arr
    (interpAt a (((arr.length : ℚ) - 1) * 10 / 100),
     interpAt a (((arr.length : ℚ) - 1) * 90 / 100))

/-- composite_metrics._normalize: None on a missing raw value or an empty
window; the neutral 50 for both directions when the percentile bounds
coincide; else the clipped, direction-aware position between the bounds
scaled to 0..100. -/
def normalize (raw : Option ℚ) (window_vals : List ℚ) (high_is_good : Bool) : Option ℚ :=
  match raw with
  | none => none
  | some r =>
    if window_vals.isEmpty then none
    else
      let p := percentiles window_vals
      if p.2 = p.1 then some (if high_is_good then 50 else 50)
      else
        let t := clip01 ((r - p.1) / (p.2 - p.1))
        some ((if high_is_good then t else 1 - t) * 100)

/-- A per-date payload of a composite-series row: metric key to optional
raw value. -/
def Payload := List (String × Option ℚ)

/-- payload.get(k): None when the key is absent or holds None. -/
def pgetQ (p : Payload) (k : String) : Option ℚ :=
  (List.lookup k p).bind id

/-- The per-key value column built by composite_metrics._align_series. -/
def alignedVals (rows : List (String × Payload)) (k : String) : List (Option ℚ) :=
  rows.map (fun r => pgetQ r.2 k)

/-- composite_metrics._rolling_window: the trailing window of up to
window_days entries ending at index, Nones dropped. -/
def rolling_window (values : List (Option ℚ)) (index window_days : ℕ) : List ℚ :=
  let start := index + 1 - window_days
  ((values.drop start).take (index + 1 - start)).filterMap id

/-- composite_metrics._weighted_sum: iterate the weight mapping, skip keys
whose score is absent or None, accumulate weight * score and the surviving
weight; None when no positive weight survives, else the BARE weighted sum
(the accumulator is not divided by the surviving weight). -/
def weighted_sum (scores : List (String × Option ℚ)) (weights : List (String × ℚ)) :
    Option ℚ :=
  let p := weights.foldl
    (fun acc kw =>
      match (List.lookup kw.1 scores).bind id with
      | none => acc
      | some s => (acc.1 + kw.2 * s, acc.2 + kw.2))
    ((0 : ℚ), (0 : ℚ))
  if p.2 ≤ 0 then none else some p.1

/-- One point of a returned composite series. -/
structure SeriesPoint where
  dt : String
  value : Option ℚ

/-- One component entry of the explain block. -/
structure ExplainComp where
  raw : Option ℚ
  score : Option ℚ

/-- The explain block returned beside a composite series. -/
structure Explain where
  weights : List (String × ℚ)
  components_latest : List (String × ExplainComp)

/-- The per-date loop shared by the three compute_*_series functions: for
each date index, normalize each key against its trailing window and combine
with _weighted_sum. -/
def seriesLoop (rows : List (String × Payload)) (window_days : ℕ)
    (keys : List String) (w : List (String × ℚ)) (dir : String → Bool) :
    List SeriesPoint :=
  (List.range rows.length).map (fun i =>
    { dt := (rows.map Prod.fst).getD i ""
      value := weighted_sum
        (keys.map (fun k =>
          (k, normalize ((alignedVals rows k).getD i none)
            (rolling_window (alignedVals rows k) i window_days) (dir k))))
        w })

/-- Python weights or default: the default mapping when the argument is
None or empty. -/
def weightsOrDefault (weights : Option (List (String × ℚ)))
    (d : List (String × ℚ)) : List (String × ℚ) :=
  match weights with
  | none => d
  | some ws => if ws.isEmpty then d else ws

/-- vals[k][-1] of the explain blocks (the source indexes from the end and
would raise on an empty series; the model returns None there). -/
def latestVal (rows : List (String × Payload)) (k : String) : Option ℚ :=
  (alignedVals rows k).getD (rows.length - 1) none

/-- The metric keys of the vitality composite. -/
def vitalityKeys : List String :=
  ["metric_activity", "metric_openrank", "metric_participants", "metric_attention"]

/-- The default vitality weights. -/
def vitalityDefaultW : List (String × ℚ) :=
  [("metric_activity", 0.45), ("metric_openrank", 0.25),
   ("metric_participants", 0.20), ("metric_attention", 0.10)]

/-- composite_metrics.compute_vitality_series: the rolling composite series
(all four metrics higher-is-better) plus its explain block. -/
def compute_vitality_series (rows : List (String × Payload)) (window_days : ℕ)
    (weights : Option (List (String × ℚ))) : List SeriesPoint × Explain :=
  let w := weightsOrDefault weights vitalityDefaultW
  (seriesLoop rows window_days vitalityKeys w (fun _ => true),
   { weights := w
     components_latest := vitalityKeys.map (fun k =>
       (k, { raw := latestVal rows k
             score := normalize (latestVal rows k)
               (rolling_window (alignedVals rows k) (rows.length - 1) window_days)
               true })) })

/-- The metric keys of the responsiveness composite. -/
def respKeys : List String :=
  ["metric_issue_response_time_h", "metric_pr_response_time_h",
   "metric_issue_resolution_duration_h", "metric_pr_resolution_duration_h"]

/-- The default responsiveness weights. -/
def respDefaultW : List (String × ℚ) :=
  [("metric_issue_response_time_h", 0.30), ("metric_pr_response_time_h", 0.30),
   ("metric_issue_resolution_duration_h", 0.20),
   ("metric_pr_resolution_duration_h", 0.20)]

/-- One component entry of the responsiveness explain block, which also
carries the count of non-None raw values. -/
structure RespExplainComp where
  raw : Option ℚ
  score : Option ℚ
  valid_count : ℕ

/-- The responsiveness explain block. -/
structure RespExplain where
  weights : List (String × ℚ)
  components_latest : List (String × RespExplainComp)

/-- composite_metrics.compute_responsiveness_series: all four latency
metrics are lower-is-better. -/
def compute_responsiveness_series (rows : List (String × Payload)) (window_days : ℕ)
    (weights : Option (List (String × ℚ))) : List SeriesPoint × RespExplain :=
  let w := weightsOrDefault weights respDefaultW
  (seriesLoop rows window_days respKeys w (fun _ => false),
   { weights := w
     components_latest := respKeys.map (fun k =>
       let vc := ((alignedVals rows k).filterMap id).length
       if 0 < vc then
         (k, { raw := latestVal rows k
               score := normalize (latestVal rows k)
                 (rolling_window (alignedVals rows k) (rows.length - 1) window_days)
                 false
               valid_count := vc })
       else (k, { raw := none, score := none, valid_count := 0 })) })

/-- The metric keys of the resilience composite. -/
def resilienceKeys : List String :=
  ["metric_bus_factor", "metric_top1_share", "metric_hhi", "metric_retention_rate"]

/-- The direction map of the resilience composite: bus factor and retention
are higher-is-better, concentration measures are lower-is-better. -/
def resilienceDir (k : String) : Bool :=
  k == ("metric_bus_factor") || k == ("metric_retention_rate")

/-- The default resilience weights. -/
def resilienceDefaultW : List (String × ℚ) :=
  [("metric_bus_factor", 0.35), ("metric_top1_share", 0.25),
   ("metric_hhi", 0.20), ("metric_retention_rate", 0.20)]

/-- composite_metrics.compute_resilience_series. -/
def compute_resilience_series (rows : List (String × Payload)) (window_days : ℕ)
    (weights : Option (List (String × ℚ))) : List SeriesPoint × Explain :=
  let w := weightsOrDefault weights resilienceDefaultW
  (seriesLoop rows window_days resilienceKeys w resilienceDir,
   { weights := w
     components_latest := resilienceKeys.map (fun k =>
       (k, { raw := latestVal rows k
             score := normalize (latestVal rows k)
               (rolling_window (alignedVals rows k) (rows.length - 1) window_days)
               (resilienceDir k) })) })

end Composite

namespace Newcomer

/-- newcomer_scoring.percentile: sort the cohort values and read the pct-th
percentile by linear interpolation; None on an empty cohort.  (The source
also filters out None/NaN entries, which do not exist in this model.) -/
def percentile (values : List ℚ) (pct : ℚ) : Option ℚ :=
  let arr := sortedAsc values
  if arr.isEmpty then none
  else some (interpAt arr (((arr.length : ℚ) - 1) * pct / 100))

/-- newcomer_scoring.clamp (default range 0..1). -/
def clamp (value lo hi : ℚ) : ℚ := max lo (min hi value)

/-- newcomer_scoring.norm_hi: None when the value or either percentile
bound is missing or the bounds coincide, else the clipped position. -/
def norm_hi (value p10 p90 : Option ℚ) : Option ℚ :=
  match value, p10, p90 with
  | some v, some a, some b =>
    if b = a then none else some (clamp ((v - a) / (b - a)) 0 1)
  | _, _, _ => none

/-- newcomer_scoring.norm_lo: the reversed direction. -/
def norm_lo (value p10 p90 : Option ℚ) : Option ℚ :=
  match value, p10, p90 with
  | some v, some a, some b =>
    if b = a then none else some (clamp (1 - (v - a) / (b - a)) 0 1)
  | _, _, _ => none

/-- Splits a character list into its maximal alphanumeric runs. -/
def splitRunsAux : List Char → List Char → List (List Char)
  | [], acc => if acc.isEmpty then [] else [acc.reverse]
  | c :: t, acc =>
    if c.isAlphanum then splitRunsAux t (c :: acc)
    else if acc.isEmpty then splitRunsAux t [] else acc.reverse :: splitRunsAux t []

/-- newcomer_scoring.tokenize: lower-case, split on non-alphanumeric runs,
keep the nonempty tokens. -/
def tokenize (text : String) : List String :=
  (splitRunsAux (strLower text).toList []).map (fun cs => String.mk cs)

/-- newcomer_scoring.compute_keyword_overlap: the deduplicated lower-cased
user keywords intersected with the token set of the tags and description,
as a fraction of the user set, clipped to 0..1; 0 when either set is
empty. -/
def compute_keyword_overlap (user_keywords : List String) (tags : List String)
    (description : Option String) : ℚ :=
  let user := ((user_keywords.filter (fun k => k ≠ "")).map strLower).dedup
  if user.isEmpty then 0
  else
    let target := (tokenize (String.intercalate " " tags)
      ++ tokenize (description.getD "")).dedup
    if target.isEmpty then 0
    else
      let overlap := (user.filter (fun u => target.contains u)).length
      clamp ((overlap : ℚ) / max (user.length : ℚ) 1) 0 1

/-- The static per-candidate profile of the readiness/fit scorer.  (The
source field named after the technology stacks is spelled stackList here
because its Python name collides with a Lean keyword.) -/
structure CandidateRepo where
  repo_full_name : String
  url : Option String
  domains : List String
  stackList : List String
  tags : List String
  description : Option String
  seed_domain : Option String

/-- True when the needle occurs contiguously in the haystack (Python
substring containment; the empty needle is contained in everything). -/
def isSubRun (n : List Char) : List Char → Bool
  | [] => n.isEmpty
  | c :: t => n.isPrefixOf (c :: t) || isSubRun n t

/-- newcomer_scoring._contains: the lower-cased target matches some entry
by equality or substring containment in either direction. -/
def containsHit (values : List String) (target : String) : Bool :=
  let t := strLower target
  values.any (fun v =>
    t == strLower v || isSubRun t.toList (strLower v).toList
      || isSubRun (strLower v).toList t.toList)

/-- newcomer_scoring.fit_score = min(40 * domain_hit + 35 * stack_hit +
25 * keyword_overlap, 100). -/
def fit_score (repo : CandidateRepo) (domain stack : String)
    (keywords : List String) : ℚ :=
  let domain_hit : ℚ := if containsHit repo.domains domain then 1 else 0
  let stack_hit : ℚ := if containsHit repo.stackList stack then 1 else 0
  let keyword_overlap := compute_keyword_overlap keywords repo.tags repo.description
  min (40 * domain_hit + 35 * stack_hit + 25 * keyword_overlap) 100

/-- The latest known metrics of one candidate. -/
structure RepoMetrics where
  repo_full_name : String
  dt : Option String
  metric_issue_response_time_h : Option ℚ
  metric_pr_response_time_h : Option ℚ
  metric_issue_age_h : Option ℚ
  metric_pr_age_h : Option ℚ
  metric_activity_3m : Option ℚ
  metric_activity_growth : Option ℚ
  metric_new_contributors : Option ℚ
  metric_openrank : Option ℚ

/-- The labeled-issue supply counts of one candidate. -/
structure IssueStats where
  good_first : ℕ
  help_wanted : ℕ
  docs : ℕ
  i18n : ℕ
  freshness_factor : ℚ

/-- The onboarding-documentation signals of one candidate. -/
structure DocInfo where
  repo_full_name : String
  readme_text : Option String
  contributing_text : Option String
  pr_template_text : Option String
  extracted : List (String × List String)

/-- newcomer_scoring._weighted: drop None values, None when nothing
survives, else the weight-renormalized blend scaled by 100. -/
def weighted (values : List (Option ℚ)) (weights : List ℚ) : Option ℚ :=
  let pairs := (values.zip weights).filterMap
    (fun vw => vw.1.map (fun v => (v, vw.2)))
  if pairs.isEmpty then none
  else
    let total0 := (pairs.map Prod.snd).sum
    let total := if total0 = 0 then 1 else total0
    some ((pairs.map (fun vw => vw.1 * (vw.2 / total))).sum * 100)

/-- The response component of readiness_score: four norm_lo latencies
blended 0.4/0.3/0.2/0.1. -/
def respComponent (metrics : RepoMetrics) (resp_p : Option ℚ × Option ℚ) :
    Option ℚ :=
  weighted
    [norm_lo metrics.metric_issue_response_time_h resp_p.1 resp_p.2,
     norm_lo metrics.metric_pr_response_time_h resp_p.1 resp_p.2,
     norm_lo metrics.metric_issue_age_h resp_p.1 resp_p.2,
     norm_lo metrics.metric_pr_age_h resp_p.1 resp_p.2]
    [0.4, 0.3, 0.2, 0.1]

/-- The activity component of readiness_score: three norm_hi signals
blended 0.45/0.25/0.30. -/
def activityComponent (metrics : RepoMetrics) (activity_p : Option ℚ × Option ℚ) :
    Option ℚ :=
  weighted
    [norm_hi metrics.metric_activity_3m activity_p.1 activity_p.2,
     norm_hi metrics.metric_activity_growth activity_p.1 activity_p.2,
     norm_hi metrics.metric_new_contributors activity_p.1 activity_p.2]
    [0.45, 0.25, 0.30]

/-- The task-supply component of readiness_score: log1p-compressed label
counts, percentile-normalized, scaled by the freshness factor clipped to
0.6..1. -/
def supplyComponent (L : LogModel) (stats : IssueStats)
    (supply_p : Option ℚ × Option ℚ) : ℚ :=
  let supply_raw : ℚ := 2 * (stats.good_first : ℚ) + 1.5 * (stats.help_wanted : ℚ)
    + 1.0 * (stats.docs : ℚ) + 1.0 * (stats.i18n : ℚ)
  let supply_base := L.log1p supply_raw
  let supply_norm := norm_hi (some supply_base) supply_p.1 supply_p.2
  let freshness := clamp stats.freshness_factor 0.6 1.0
  (supply_norm.getD 0) * 100 * freshness

/-- Truthiness of an optional string: present and nonempty. -/
def strTruthy (o : Option String) : Bool := o.getD "" ≠ ""

/-- The onboarding component of readiness_score: a flat point sum over
README / CONTRIBUTING / PR template / extracted setup commands, capped at
100. -/
def onboardingComponent (docs : DocInfo) : ℚ :=
  let base : ℚ := (if strTruthy docs.readme_text then 30 else 0)
    + (if strTruthy docs.contributing_text then 40 else 0)
    + (if strTruthy docs.pr_template_text then 15 else 0)
    + (if (["setup", "build", "test", "commands"]).any
        (fun k => !((List.lookup k docs.extracted).getD []).isEmpty) then 15 else 0)
  min base 100

/-- newcomer_scoring.readiness_score: the response, activity, task-supply
and onboarding components blended 0.35/0.20/0.25/0.20 with weights
renormalized over the present components; 0 when nothing survives. -/
def readiness_score (L : LogModel) (metrics : RepoMetrics) (stats : IssueStats)
    (docs : DocInfo) (resp_p activity_p supply_p : Option ℚ × Option ℚ) : ℚ :=
  let resp := respComponent metrics resp_p
  let activity := activityComponent metrics activity_p
  let supply := supplyComponent L stats supply_p
  let onboarding := onboardingComponent docs
  let pw := ([(resp, (0.35 : ℚ)), (activity, 0.20), (some supply, 0.25),
    (some onboarding, 0.20)]).filterMap (fun vw => vw.1.map (fun v => (v, vw.2)))
  if pw.isEmpty then 0
  else
    let ws := (pw.map Prod.snd).sum
    let ws1 := if ws = 0 then 1 else ws
    (pw.map (fun vw => vw.1 * (vw.2 / ws1))).sum

end Newcomer

namespace MetricEngine

/-- The (score, weight) pairs surviving the null-drop of _weighted_avg,
stated independently of its loop: zip, then keep the pairs whose score is
present. -/
def survivingPairs (scores : List (Option ℚ)) (weights : List ℚ) : List (ℚ × ℚ) :=
  (scores.zip weights).filterMap (fun sw => sw.1.map (fun s => (s, sw.2)))

/-- A score field is None or lands in 0..100. -/
def ScoreInRange (o : Option ℚ) : Prop :=
  ∀ q : ℚ, o = some q → 0 ≤ q ∧ q ≤ 100

/-- Every score field of a health record is None or lands in 0..100. -/
def AllScoresInRange (r : HealthOverviewRecord) : Prop :=
  ScoreInRange r.score_health ∧ ScoreInRange r.score_vitality ∧
  ScoreInRange r.score_responsiveness ∧ ScoreInRange r.score_resilience ∧
  ScoreInRange r.score_governance ∧ ScoreInRange r.score_security ∧
  ScoreInRange r.score_vitality_influence ∧ ScoreInRange r.score_vitality_momentum ∧
  ScoreInRange r.score_vitality_community ∧ ScoreInRange r.score_vitality_growth ∧
  ScoreInRange r.score_resp_first ∧ ScoreInRange r.score_resp_close ∧
  ScoreInRange r.score_resp_backlog ∧ ScoreInRange r.score_res_bf ∧
  ScoreInRange r.score_res_diversity ∧ ScoreInRange r.score_res_retention ∧
  ScoreInRange r.score_gov_files ∧ ScoreInRange r.score_gov_process ∧
  ScoreInRange r.score_gov_transparency ∧ ScoreInRange r.score_sec_base ∧
  ScoreInRange r.score_sec_critical ∧ ScoreInRange r.score_sec_bonus

/-- The keys MetricEngine.compute reads through raw metrics.get rather than
through the numeric helper m: dropping or malforming other keys cannot be
seen except through m. -/
def rawAccessKeys : List String :=
  ["repo_full_name", "dt",
   "metric_active_dates_and_times", "active_dates_and_times",
   "metric_activity_details", "activity_details",
   "metric_contributors_detail", "contributors_detail",
   "metric_stars_growth", "metric_stars_growth_rate",
   "metric_governance_files", "governance_files",
   "metric_scorecard_checks", "scorecard_checks",
   "metric_security_defaulted", "raw_payloads"]

end MetricEngine

namespace Composite

/-- Modelled from the spec's words, for comparison with _weighted_sum: the
BARE weighted sum over surviving (score, weight) pairs, None when no
weight survives. -/
def bareWeightedSumSpec (pairs : List (Option ℚ × ℚ)) : Option ℚ :=
  let surv := pairs.filterMap (fun p => p.1.map (fun s => (s, p.2)))
  if (surv.map Prod.snd).sum ≤ 0 then none
  else some ((surv.map (fun p => p.1 * p.2)).sum)

/-- Modelled from the spec's words, for comparison with _weighted_sum: the
weight-renormalized average over surviving pairs that the spec describes,
namely the sum of score*weight divided by the sum of the surviving
weights. -/
def weightedAvgSpec (pairs : List (Option ℚ × ℚ)) : Option ℚ :=
  let surv := pairs.filterMap (fun p => p.1.map (fun s => (s, p.2)))
  if (surv.map Prod.snd).sum ≤ 0 then none
  else some ((surv.map (fun p => p.1 * p.2)).sum / (surv.map Prod.snd).sum)

/-- The per-metric normalized sub-score of a composite series at date index
i: the metric's value at i normalized against its trailing window. -/
def compSubScore (rows : List (String × Payload)) (window_days : ℕ) (k : String)
    (i : ℕ) (dir : Bool) : Option ℚ :=
  normalize ((alignedVals rows k).getD i none)
    (rolling_window (alignedVals rows k) i window_days) dir

end Composite

namespace MetricEngine

theorem wavg_foldl (l : List (Option ℚ × ℚ)) (a b : ℚ) :
    l.foldl (fun acc sw =>
        match sw.1 with
        | none => acc
        | some s => (acc.1 + s * sw.2, acc.2 + sw.2)) (a, b)
      = (a + ((l.filterMap (fun sw => sw.1.map (fun s => (s, sw.2)))).map
          (fun p => p.1 * p.2)).sum,
         b + ((l.filterMap (fun sw => sw.1.map (fun s => (s, sw.2)))).map
          Prod.snd).sum) := by
  induction l generalizing a b with
  | nil => simp
  | cons hd t ih =>
    obtain ⟨o, w⟩ := hd
    cases o with
    | none => simpa using ih a b
    | some s =>
      simp only [List.foldl_cons, List.filterMap_cons, Option.map_some',
        List.map_cons, List.sum_cons]
      rw [ih]
      exact Prod.ext (by ring) (by ring)

theorem weighted_avg_eq (scores : List (Option ℚ)) (weights : List ℚ) :
    weighted_avg scores weights =
      if weights.sum ≤ 0 then none
      else if ((survivingPairs scores weights).map Prod.snd).sum = 0 then none
      else some (((survivingPairs scores weights).map (fun p => p.1 * p.2)).sum
        / ((survivingPairs scores weights).map Prod.snd).sum) := by
  unfold weighted_avg survivingPairs
  rw [wavg_foldl]
  simp

theorem surv_mem (scores : List (Option ℚ)) (weights : List ℚ) (p : ℚ × ℚ)
    (hp : p ∈ survivingPairs scores weights) :
    some p.1 ∈ scores ∧ p.2 ∈ weights := by
  unfold survivingPairs at hp
  rcases List.mem_filterMap.mp hp with ⟨sw, hsw, hmap⟩
  rcases Option.map_eq_some'.mp hmap with ⟨s, hs, hps⟩
  have hz := List.of_mem_zip hsw
  subst hps
  exact ⟨by simpa [hs] using hz.1, hz.2⟩

theorem surv_sum_bounds (l : List (ℚ × ℚ))
    (h : ∀ p ∈ l, (0 ≤ p.1 ∧ p.1 ≤ 100) ∧ 0 ≤ p.2) :
    0 ≤ (l.map (fun p => p.1 * p.2)).sum ∧
      (l.map (fun p => p.1 * p.2)).sum ≤ 100 * (l.map Prod.snd).sum := by
  induction l with
  | nil => simp
  | cons hd t ih =>
    have hh := h hd (by simp)
    have ht := ih (fun p hp => h p (by simp [hp]))
    simp only [List.map_cons, List.sum_cons]
    constructor
    · have : 0 ≤ hd.1 * hd.2 := mul_nonneg hh.1.1 hh.2
      linarith [ht.1]
    · have : hd.1 * hd.2 ≤ 100 * hd.2 := mul_le_mul_of_nonneg_right hh.1.2 hh.2
      have h2 := ht.2
      rw [mul_add]
      linarith

theorem weighted_avg_range (scores : List (Option ℚ)) (weights : List ℚ)
    (hs : ∀ o ∈ scores, ScoreInRange o) (hw : ∀ w ∈ weights, 0 ≤ w) :
    ScoreInRange (weighted_avg scores weights) := by
  intro q hq
  rw [weighted_avg_eq] at hq
  by_cases h1 : weights.sum ≤ 0
  · simp [h1] at hq
  by_cases h2 : ((survivingPairs scores weights).map Prod.snd).sum = 0
  · simp [h1, h2] at hq
  simp only [h1, h2, if_false, Option.some.injEq] at hq
  have hb := surv_sum_bounds (survivingPairs scores weights) (fun p hp => by
    have hm := surv_mem scores weights p hp
    exact ⟨hs (some p.1) hm.1 p.1 rfl, hw p.2 hm.2⟩)
  have hwsum : 0 ≤ ((survivingPairs scores weights).map Prod.snd).sum :=
    List.sum_nonneg (fun x hx => by
      rcases List.mem_map.mp hx with ⟨p, hp, hpx⟩
      exact hpx ▸ hw p.2 (surv_mem scores weights p hp).2)
  have hpos : 0 < ((survivingPairs scores weights).map Prod.snd).sum :=
    lt_of_le_of_ne hwsum (Ne.symm h2)
  subst hq
  constructor
  · exact div_nonneg hb.1 (le_of_lt hpos)
  · rw [div_le_iff₀ hpos]
    linarith [hb.2]

/-- C4: the health-engine primitive weighted_avg drops every (score, weight)
pair whose score is null, returns null when no pairs survive, and otherwise
returns the sum of score*weight divided by the sum of the surviving weights
(stated for any all-positive weight vector, which is how the engine calls
it); concretely weighted_avg([], []) and weighted_avg([null, null],
[w1, w2]) are null, and weighted_avg([80, null], [0.6, 0.4]) is 80. -/
theorem c4_weighted_avg_drops_nulls :
    weighted_avg [] [] = none ∧
    (∀ w1 w2 : ℚ, weighted_avg [none, none] [w1, w2] = none) ∧
    weighted_avg [some 80, none] [0.6, 0.4] = some 80 ∧
    ∀ (scores : List (Option ℚ)) (weights : List ℚ),
      (∀ w ∈ weights, 0 < w) →
      weighted_avg scores weights =
        if (survivingPairs scores weights).isEmpty then none
        else some (((survivingPairs scores weights).map (fun p => p.1 * p.2)).sum
          / ((survivingPairs scores weights).map Prod.snd).sum) := by
  refine ⟨by norm_num [weighted_avg], ?_, by norm_num [weighted_avg], ?_⟩
  · intro w1 w2
    rw [weighted_avg_eq]
    simp [survivingPairs]
  · intro scores weights hw
    rw [weighted_avg_eq]
    by_cases h1 : weights.sum ≤ 0
    · have hnil : weights = [] := by
        cases weights with
        | nil => rfl
        | cons w ws =>
          exfalso
          have hpos : 0 < w := hw w (by simp)
          have hnn : 0 ≤ ws.sum :=
            List.sum_nonneg (fun x hx => le_of_lt (hw x (by simp [hx])))
          have hsum : 0 < (w :: ws).sum := by
            simp only [List.sum_cons]; linarith
          linarith
      subst hnil
      simp [survivingPairs, h1]
    · simp only [h1, if_false]
      by_cases h2 : (survivingPairs scores weights).isEmpty
      · have he : survivingPairs scores weights = [] := List.isEmpty_iff.mp h2
        simp [h2, he]
      · have hne : survivingPairs scores weights ≠ [] := by
          intro hcon
          exact h2 (by simp [hcon])
        have hall : ∀ x ∈ (survivingPairs scores weights).map Prod.snd, 0 ≤ x := by
          intro x hx
          rcases List.mem_map.mp hx with ⟨r, hr, hrx⟩
          exact hrx ▸ le_of_lt (hw r.2 (surv_mem scores weights r hr).2)
        rcases List.exists_mem_of_ne_nil _ hne with ⟨p, hp⟩
        have hmem : p.2 ∈ (survivingPairs scores weights).map Prod.snd :=
          List.mem_map.mpr ⟨p, hp, rfl⟩
        have hpp : 0 < p.2 := hw p.2 (surv_mem scores weights p hp).2
        have hpos : 0 < ((survivingPairs scores weights).map Prod.snd).sum :=
          lt_of_lt_of_le hpp (List.single_le_sum hall _ hmem)
        simp [h2, ne_of_gt hpos]

/-- Witness for C4 at the concrete input of the claim. -/
theorem c4_weighted_avg_drops_nulls_witness :
    (∀ w ∈ [(0.6 : ℚ), 0.4], 0 < w) ∧
    weighted_avg [some 80, none] [0.6, 0.4] =
      (if (survivingPairs [some 80, none] [0.6, 0.4]).isEmpty then none
       else some (((survivingPairs [some 80, none] [0.6, 0.4]).map
          (fun p => p.1 * p.2)).sum
         / ((survivingPairs [some 80, none] [0.6, 0.4]).map Prod.snd).sum)) := by
  constructor
  · intro w hw
    rcases List.mem_cons.mp hw with h | h
    · rw [h]; norm_num
    · rcases List.mem_cons.mp h with h2 | h2
      · rw [h2]; norm_num
      · simp at h2
  · exact c4_weighted_avg_drops_nulls.2.2.2 [some 80, none] [0.6, 0.4]
      (by intro w hw
          rcases List.mem_cons.mp hw with h | h
          · rw [h]; norm_num
          · rcases List.mem_cons.mp h with h2 | h2
            · rw [h2]; norm_num
            · simp at h2)

end MetricEngine

namespace MetricEngine

theorem inRange_none : ScoreInRange none := fun q h => by cases h

theorem inRange_some {q : ℚ} (h1 : 0 ≤ q) (h2 : q ≤ 100) : ScoreInRange (some q) := by
  intro r hr
  injection hr with h
  subst h
  exact ⟨h1, h2⟩

theorem clamp_range (v : Option ℚ) : ScoreInRange (clamp v 0 100) := by
  intro q hq
  cases v with
  | none => cases hq
  | some x =>
    simp only [clamp, Option.map_some', Option.some.injEq] at hq
    subst hq
    constructor
    · exact le_max_left 0 _
    · simp only [max_le_iff]
      exact ⟨by norm_num, min_le_left _ _⟩

theorem log_score_range (L : LogModel) (v : Option ℚ) : ScoreInRange (log_score L v) := by
  cases v with
  | none => exact inRange_none
  | some x =>
    unfold log_score
    by_cases hx : x ≤ 0
    · simp only [hx, if_true]
      exact inRange_none
    · simp only [hx, if_false]
      exact clamp_range _

theorem growth_score_range (c p : Option ℚ) : ScoreInRange (growth_score c p) := by
  cases c with
  | none => cases p <;> exact inRange_none
  | some cv =>
    cases p with
    | none => exact inRange_none
    | some pv => exact clamp_range _

theorem time_score_range (h : Option ℚ) (good bad : ℚ) :
    ScoreInRange (time_score h good bad) := by
  cases h with
  | none => exact inRange_none
  | some hv =>
    unfold time_score
    by_cases h1 : hv ≤ good
    · simp only [h1, if_true]
      exact inRange_some (by norm_num) (by norm_num)
    · simp only [h1, if_false]
      by_cases h2 : bad ≤ hv
      · simp only [h2, if_true]
        exact inRange_some (by norm_num) (by norm_num)
      · simp only [h2, if_false]
        exact clamp_range _

theorem safe_bounds (o : Option ℚ) (h : ScoreInRange o) : 0 ≤ safe o ∧ safe o ≤ 100 := by
  cases o with
  | none => simp [safe]
  | some q => simpa [safe] using h q rfl

theorem vitality_influence_range (L : LogModel) (m : Metrics) :
    ScoreInRange (scoreVitalityInfluence L m) := log_score_range L _

theorem vitality_momentum_range (L : LogModel) (m : Metrics) :
    ScoreInRange (scoreVitalityMomentum L m) := log_score_range L _

theorem vitality_community_range (L : LogModel) (m : Metrics) :
    ScoreInRange (scoreVitalityCommunity L m) := by
  unfold scoreVitalityCommunity
  by_cases h : (log_score L (mParticipants m)).isSome
      || (log_score L (mNewContributors m)).isSome
  · simp only [h, if_true]
    have hp := safe_bounds _ (log_score_range L (mParticipants m))
    have hn := safe_bounds _ (log_score_range L (mNewContributors m))
    exact inRange_some (by nlinarith [hp.1, hn.1]) (by nlinarith [hp.2, hn.2])
  · simp only [h, if_false]
    exact inRange_none

theorem sustain_range (m : Metrics) : ScoreInRange (sustainScore m) := clamp_range _

theorem vitality_growth_range (m : Metrics) : ScoreInRange (scoreVitalityGrowth m) := by
  unfold scoreVitalityGrowth
  by_cases h : (activityGrowth m).isSome || (sustainScore m).isSome
  · simp only [h, if_true]
    have hg := safe_bounds _ (growth_score_range (mget m ("activity_3m"))
      (mget m ("activity_prev_3m")))
    have hs := safe_bounds _ (sustain_range m)
    unfold activityGrowth
    exact inRange_some (by nlinarith [hg.1, hs.1]) (by nlinarith [hg.2, hs.2])
  · simp only [h, if_false]
    exact inRange_none

theorem vitality_range (L : LogModel) (m : Metrics) : ScoreInRange (scoreVitality L m) := by
  unfold scoreVitality
  apply weighted_avg_range
  · intro o ho
    fin_cases ho
    · exact vitality_influence_range L m
    · exact vitality_momentum_range L m
    · exact vitality_community_range L m
    · exact vitality_growth_range m
  · intro w hw
    fin_cases hw <;> norm_num

theorem resp_first_range (L : LogModel) (m : Metrics)
    (hwi : 0 ≤ wI L m) (hwp : 0 ≤ wP L m) : ScoreInRange (scoreRespFirst L m) := by
  unfold scoreRespFirst
  apply weighted_avg_range
  · intro o ho
    fin_cases ho
    · exact time_score_range _ 24 168
    · exact time_score_range _ 12 120
  · intro w hw
    fin_cases hw
    · exact hwi
    · exact hwp

theorem resp_close_range (L : LogModel) (m : Metrics)
    (hwi : 0 ≤ wI L m) (hwp : 0 ≤ wP L m) : ScoreInRange (scoreRespClose L m) := by
  unfold scoreRespClose
  apply weighted_avg_range
  · intro o ho
    fin_cases ho
    · exact time_score_range _ 72 720
    · exact time_score_range _ 48 720
  · intro w hw
    fin_cases hw
    · exact hwi
    · exact hwp

theorem resp_backlog_range (L : LogModel) (m : Metrics)
    (hwi : 0 ≤ wI L m) (hwp : 0 ≤ wP L m) : ScoreInRange (scoreRespBacklog L m) := by
  unfold scoreRespBacklog
  apply weighted_avg_range
  · intro o ho
    fin_cases ho
    · exact time_score_range _ 168 2160
    · exact time_score_range _ 168 2160
  · intro w hw
    fin_cases hw
    · exact hwi
    · exact hwp

theorem responsiveness_range (L : LogModel) (m : Metrics)
    (hwi : 0 ≤ wI L m) (hwp : 0 ≤ wP L m) : ScoreInRange (scoreResponsiveness L m) := by
  unfold scoreResponsiveness
  have hbase : ScoreInRange (weighted_avg
      [scoreRespFirst L m, scoreRespClose L m, scoreRespBacklog L m]
      [0.45, 0.35, 0.20]) := by
    apply weighted_avg_range
    · intro o ho
      fin_cases ho
      · exact resp_first_range L m hwi hwp
      · exact resp_close_range L m hwi hwp
      · exact resp_backlog_range L m hwi hwp
    · intro w hw
      fin_cases hw <;> norm_num
  cases hb : weighted_avg
      [scoreRespFirst L m, scoreRespClose L m, scoreRespBacklog L m]
      [0.45, 0.35, 0.20] with
  | none =>
    by_cases ha : 0 < safe (mActivity m)
    · simp only [ha, if_true]
      exact inRange_some (by norm_num) (by norm_num)
    · simp only [ha, if_false]
      exact inRange_none
  | some q =>
    rw [hb] at hbase
    exact hbase

end MetricEngine

namespace MetricEngine

theorem res_bf_range (m : Metrics) : ScoreInRange (scoreResBf m) := clamp_range _

theorem res_diversity_range (m : Metrics) : ScoreInRange (scoreResDiversity m) :=
  clamp_range _

theorem res_retention_range (m : Metrics) : ScoreInRange (scoreResRetention m) := by
  unfold scoreResRetention
  cases mget m ("retention_rate") with
  | some rr => exact clamp_range _
  | none =>
    by_cases h : 0 < safe (mParticipants m)
    · simp only [h, if_true]
      exact clamp_range _
    · simp only [h, if_false]
      exact inRange_none

theorem resilience_range (m : Metrics) : ScoreInRange (scoreResilience m) := by
  unfold scoreResilience
  apply weighted_avg_range
  · intro o ho
    fin_cases ho
    · exact res_bf_range m
    · exact res_diversity_range m
    · exact res_retention_range m
  · intro w hw
    fin_cases hw <;> norm_num

theorem coverage_range (files : List (String × Bool)) :
    0 ≤ coverage_score files ∧ coverage_score files ≤ 100 := by
  unfold coverage_score
  by_cases h : files = []
  · simp [h]
  · simp only [h, if_false]
    have hc : sevenGovKeys.countP
        (fun k => (dictGetB (files.map (fun kv => (strLower kv.1, kv.2))) k).getD false)
        ≤ sevenGovKeys.length := List.countP_le_length _
    have h7 : sevenGovKeys.length = 7 := by decide
    rw [h7] at hc
    have hcq : ((sevenGovKeys.countP
        (fun k => (dictGetB (files.map (fun kv => (strLower kv.1, kv.2))) k).getD false) : ℕ) : ℚ)
        ≤ 7 := by exact_mod_cast hc
    constructor
    · positivity
    · rw [div_le_iff₀ (by norm_num : (0:ℚ) < 7)]
      nlinarith [hcq]

theorem ite_cov_range (c : Bool) (l : List (String × Bool)) :
    0 ≤ (if c = true then (100 : ℚ) else coverage_score l) ∧
      (if c = true then (100 : ℚ) else coverage_score l) ≤ 100 := by
  cases c
  · simpa using coverage_range l
  · norm_num

theorem transparency_range (files : Val) :
    0 ≤ transparency_core files ∧ transparency_core files ≤ 100 := by
  unfold transparency_core
  split
  · exact ite_cov_range _ _
  · exact ite_cov_range _ _

theorem gov_files_range (m : Metrics) : ScoreInRange (scoreGovFiles m) := clamp_range _

theorem gov_process_range (L : LogModel) (m : Metrics)
    (hwi : 0 ≤ wI L m) (hwp : 0 ≤ wP L m) : ScoreInRange (scoreGovProcess L m) := by
  unfold scoreGovProcess
  by_cases h : (scoreRespFirst L m).isSome || (scoreRespClose L m).isSome
  · simp only [h, if_true]
    have hf := safe_bounds _ (resp_first_range L m hwi hwp)
    have hc := safe_bounds _ (resp_close_range L m hwi hwp)
    exact inRange_some (by nlinarith [hf.1, hc.1]) (by nlinarith [hf.2, hc.2])
  · simp only [h, if_false]
    exact inRange_none

theorem gov_transparency_range (m : Metrics) : ScoreInRange (scoreGovTransparency m) := by
  unfold scoreGovTransparency
  have ht := transparency_range (governanceFilesVal m)
  exact inRange_some ht.1 ht.2

theorem governance_range (L : LogModel) (m : Metrics)
    (hwi : 0 ≤ wI L m) (hwp : 0 ≤ wP L m) : ScoreInRange (scoreGovernance L m) := by
  unfold scoreGovernance
  have hbase : ScoreInRange (weighted_avg
      [scoreGovFiles m, scoreGovProcess L m, scoreGovTransparency m]
      [0.45, 0.35, 0.20]) := by
    apply weighted_avg_range
    · intro o ho
      fin_cases ho
      · exact gov_files_range m
      · exact gov_process_range L m hwi hwp
      · exact gov_transparency_range m
    · intro w hw
      fin_cases hw <;> norm_num
  cases hb : weighted_avg
      [scoreGovFiles m, scoreGovProcess L m, scoreGovTransparency m]
      [0.45, 0.35, 0.20] with
  | none => exact clamp_range _
  | some q =>
    rw [hb] at hbase
    exact hbase

theorem critical_core_range (checks : Val) : ScoreInRange (critical_core checks) := by
  unfold critical_core
  by_cases h1 : !pyTruthy checks
  · simp only [h1, if_true]
    exact inRange_none
  · simp only [h1, if_false]
    by_cases h2 : (objFields checks).filterMap (fun kv => checkScore kv.2) = []
    · simp only [h2, if_true]
      exact inRange_none
    · simp only [h2, if_false]
      exact clamp_range _

theorem sec_base_range (m : Metrics) : ScoreInRange (scoreSecBase m) := by
  unfold scoreSecBase
  by_cases h : securityDefaulted m
  · simp only [h, if_true]
    exact inRange_some (by norm_num) (by norm_num)
  · simp only [h, if_false]
    exact clamp_range _

theorem sec_critical_range (m : Metrics) : ScoreInRange (scoreSecCritical m) := by
  unfold scoreSecCritical
  by_cases h : securityDefaulted m
  · simp only [h, if_true]
    exact inRange_none
  · simp only [h, if_false]
    exact critical_core_range _

theorem sec_bonus_range (m : Metrics) : ScoreInRange (scoreSecBonus m) := by
  unfold scoreSecBonus
  by_cases h : securityDefaulted m
  · simp only [h, if_true]
    exact inRange_some (by norm_num) (by norm_num)
  · simp only [h, if_false]
    exact inRange_some (by norm_num) (by norm_num)

theorem security_range (m : Metrics) : ScoreInRange (scoreSecurity m) := by
  unfold scoreSecurity
  by_cases h : securityDefaulted m
  · simp only [h, if_true]
    exact inRange_some (by norm_num) (by norm_num)
  · simp only [h, if_false]
    have hbase : ScoreInRange (weighted_avg
        [scoreSecBase m, scoreSecCritical m, scoreSecBonus m] [0.7, 0.2, 0.1]) := by
      apply weighted_avg_range
      · intro o ho
        fin_cases ho
        · exact sec_base_range m
        · exact sec_critical_range m
        · exact sec_bonus_range m
      · intro w hw
        fin_cases hw <;> norm_num
    cases hb : weighted_avg
        [scoreSecBase m, scoreSecCritical m, scoreSecBonus m] [0.7, 0.2, 0.1] with
    | none => exact inRange_some (by norm_num) (by norm_num)
    | some q =>
      rw [hb] at hbase
      exact hbase

theorem health_range (L : LogModel) (m : Metrics)
    (hwi : 0 ≤ wI L m) (hwp : 0 ≤ wP L m) : ScoreInRange (scoreHealth L m) := by
  unfold scoreHealth
  apply weighted_avg_range
  · intro o ho
    fin_cases ho
    · exact vitality_range L m
    · exact responsiveness_range L m hwi hwp
    · exact resilience_range m
    · exact governance_range L m hwi hwp
    · exact security_range m
  · intro w hw
    fin_cases hw <;> norm_num

end MetricEngine

namespace MetricEngine

theorem compute_ok (L : LogModel) (m : Metrics)
    (h1 : ¬ safe (mIssuesNew m) ≤ -1) (h2 : ¬ safe (mPrsNew m) ≤ -1)
    (h3 : ¬ (pyTruthy (governanceFilesVal m) && !isObjV (governanceFilesVal m)) = true)
    (h4 : securityDefaulted m = true ∨
      ¬ (pyTruthy (scorecardChecksVal m) && !isObjV (scorecardChecksVal m)) = true) :
    compute L m = Except.ok (computeRecord L m) := by
  unfold compute pyLog1p transparency_bonus critical_security_score
  by_cases hsd : securityDefaulted m
  · simp only [if_neg h1, if_neg h2, if_neg h3, hsd, if_true]
    rfl
  · rcases h4 with h4 | h4
    · exact absurd h4 hsd
    · simp only [if_neg h1, if_neg h2, if_neg h3, hsd, if_false, if_neg h4]
      rfl

theorem metric_prefix_ne (key : String) : ("metric_" ++ key) ≠ key := by
  intro h
  have hlen := congrArg String.length h
  rw [String.length_append] at hlen
  have h7 : ("metric_").length = 7 := rfl
  rw [h7] at hlen
  omega

theorem lookup_shadow (rest : Metrics) (k : String) (u : Val) (k' : String)
    (hne : k' ≠ k) :
    List.lookup k' ((k, u) :: rest) = List.lookup k' rest := by
  have hb : (k' == k) = false := beq_eq_false_iff_ne.mpr hne
  simp [List.lookup, hb]

theorem mget_shadow (rest : Metrics) (k : String) (u : Val)
    (hku : toFloatQ u = none) (hr : List.lookup k rest = none) (key : String) :
    mget ((k, u) :: rest) key = mget rest key := by
  unfold mget pyget
  by_cases h1 : key = k
  · subst h1
    have hhead : List.lookup key ((key, u) :: rest) = some u := by
      simp [List.lookup]
    rw [hhead, hr]
    have hfirst : (match some u with
        | some Val.null => none
        | o => o).bind toFloatQ = (none : Option ℚ) := by
      cases u <;> simp_all [toFloatQ]
    rw [hfirst]
    have hmk : ("metric_" ++ key) ≠ key := metric_prefix_ne key
    rw [lookup_shadow rest key u ("metric_" ++ key) hmk]
    simp
  · rw [lookup_shadow rest k u key h1]
    by_cases h2 : ("metric_" ++ key) = k
    · rw [h2.symm] at hr
      have hhead2 : List.lookup ("metric_" ++ key) ((k, u) :: rest) = some u := by
        rw [← h2]
        simp [List.lookup]
      rw [hhead2, hr]
      have hfirst : (match some u with
          | some Val.null => none
          | o => o).bind toFloatQ = (none : Option ℚ) := by
        cases u <;> simp_all [toFloatQ]
      rw [hfirst]
      simp
    · rw [lookup_shadow rest k u ("metric_" ++ key) h2]

end MetricEngine

namespace MetricEngine

theorem computeRecord_shadow (L : LogModel) (rest : Metrics) (k : String) (u : Val)
    (hku : toFloatQ u = none) (hk : k ∉ rawAccessKeys)
    (hr : List.lookup k rest = none) :
    computeRecord L ((k, u) :: rest) = computeRecord L rest := by
  have hm : ∀ key, mget ((k, u) :: rest) key = mget rest key :=
    mget_shadow rest k u hku hr
  have hne : ∀ k', k' ∈ rawAccessKeys →
      List.lookup k' ((k, u) :: rest) = List.lookup k' rest := by
    intro k' h'
    refine lookup_shadow rest k u k' ?_
    intro he
    exact hk (he ▸ h')
  have e01 := hne ("repo_full_name") (by simp [rawAccessKeys])
  have e02 := hne ("dt") (by simp [rawAccessKeys])
  have e03 := hne ("metric_active_dates_and_times") (by simp [rawAccessKeys])
  have e04 := hne ("active_dates_and_times") (by simp [rawAccessKeys])
  have e05 := hne ("metric_activity_details") (by simp [rawAccessKeys])
  have e06 := hne ("activity_details") (by simp [rawAccessKeys])
  have e07 := hne ("metric_contributors_detail") (by simp [rawAccessKeys])
  have e08 := hne ("contributors_detail") (by simp [rawAccessKeys])
  have e09 := hne ("metric_stars_growth") (by simp [rawAccessKeys])
  have e10 := hne ("metric_stars_growth_rate") (by simp [rawAccessKeys])
  have e11 := hne ("metric_governance_files") (by simp [rawAccessKeys])
  have e12 := hne ("governance_files") (by simp [rawAccessKeys])
  have e13 := hne ("metric_scorecard_checks") (by simp [rawAccessKeys])
  have e14 := hne ("scorecard_checks") (by simp [rawAccessKeys])
  have e15 := hne ("metric_security_defaulted") (by simp [rawAccessKeys])
  have e16 := hne ("raw_payloads") (by simp [rawAccessKeys])
  simp only [computeRecord, mActivity, mParticipants, mNewContributors,
    scoreVitalityInfluence, scoreVitalityMomentum, scoreVitalityCommunity,
    activityGrowth, sustainScore, scoreVitalityGrowth, scoreVitality,
    mIssuesNew, mPrsNew, wI, wP, issueFirst, prResponseTime, prFirst,
    issueClose, prResolution, prClose, issueAge, prAgeH, prAge,
    scoreRespFirst, scoreRespClose, scoreRespBacklog, scoreResponsiveness,
    scoreResBf, diversitySource, scoreResDiversity, scoreResRetention,
    scoreResilience, governanceFilesVal, scoreGovFiles, scoreGovProcess,
    scoreGovTransparency, scoreGovernance, securityDefaulted,
    scorecardChecksVal, scoreSecBase, scoreSecCritical, scoreSecBonus,
    scoreSecurity, scoreHealth, starsGrowthVal, starsGrowthRateVal,
    pygetValD, hm, e01, e02, e03, e04, e05, e06, e07, e08, e09, e10, e11,
    e12, e13, e14, e15, e16]

theorem compute_shadow (L : LogModel) (rest : Metrics) (k : String) (u : Val)
    (hku : toFloatQ u = none) (hk : k ∉ rawAccessKeys)
    (hr : List.lookup k rest = none) :
    compute L ((k, u) :: rest) = compute L rest := by
  have hm : ∀ key, mget ((k, u) :: rest) key = mget rest key :=
    mget_shadow rest k u hku hr
  have hne : ∀ k', k' ∈ rawAccessKeys →
      List.lookup k' ((k, u) :: rest) = List.lookup k' rest := by
    intro k' h'
    refine lookup_shadow rest k u k' ?_
    intro he
    exact hk (he ▸ h')
  have e11 := hne ("metric_governance_files") (by simp [rawAccessKeys])
  have e12 := hne ("governance_files") (by simp [rawAccessKeys])
  have e13 := hne ("metric_scorecard_checks") (by simp [rawAccessKeys])
  have e14 := hne ("scorecard_checks") (by simp [rawAccessKeys])
  have e15 := hne ("metric_security_defaulted") (by simp [rawAccessKeys])
  have hrec := computeRecord_shadow L rest k u hku hk hr
  simp only [compute, mIssuesNew, mPrsNew, governanceFilesVal,
    securityDefaulted, scorecardChecksVal, pygetValD, hm, e11, e12, e13,
    e14, e15, hrec]

end MetricEngine

namespace MetricEngine

/-- C5 (amended): provided the parsed issues_new and prs_new channel
inputs are nonnegative when present (they are issue/PR counts; a negative
parsed count flips a channel weight negative and breaks the invariant, see
the counterexample), every score field of the record MetricEngine.compute
returns — the overall health score, the five dimension scores and every
dimension sub-score — is null or a number within 0..100, for every metrics
mapping and every log model. -/
theorem c5_score_fields_in_range (L : LogModel) (m : Metrics)
    (h1 : 0 ≤ safe (mIssuesNew m)) (h2 : 0 ≤ safe (mPrsNew m)) :
    AllScoresInRange (computeRecord L m) := by
  have hwi : 0 ≤ wI L m := L.nonneg _ h1
  have hwp : 0 ≤ wP L m := L.nonneg _ h2
  exact ⟨health_range L m hwi hwp, vitality_range L m,
    responsiveness_range L m hwi hwp, resilience_range m,
    governance_range L m hwi hwp, security_range m,
    vitality_influence_range L m, vitality_momentum_range L m,
    vitality_community_range L m, vitality_growth_range m,
    resp_first_range L m hwi hwp, resp_close_range L m hwi hwp,
    resp_backlog_range L m hwi hwp, res_bf_range m, res_diversity_range m,
    res_retention_range m, gov_files_range m, gov_process_range L m hwi hwp,
    gov_transparency_range m, sec_base_range m, sec_critical_range m,
    sec_bonus_range m⟩

/-- C5 counterexample: with issues_new parsed as -1/2 (and prs_new 3),
compute succeeds and returns score_resp_first = -20, outside 0..100, so
the unamended invariant over arbitrary inputs is false on the code. -/
theorem c5_counterexample :
    compute logModelId
        [(("issues_new"), Val.num (-(1 : ℚ)/2)), (("prs_new"), Val.num 3),
         (("issue_response_time_h"), Val.num 1), (("pr_response_time_h"), Val.num 1000)]
      = Except.ok (computeRecord logModelId
        [(("issues_new"), Val.num (-(1 : ℚ)/2)), (("prs_new"), Val.num 3),
         (("issue_response_time_h"), Val.num 1), (("pr_response_time_h"), Val.num 1000)]) ∧
    (computeRecord logModelId
        [(("issues_new"), Val.num (-(1 : ℚ)/2)), (("prs_new"), Val.num 3),
         (("issue_response_time_h"), Val.num 1), (("pr_response_time_h"), Val.num 1000)]).score_resp_first
      = some (-20) ∧
    ¬ (0 : ℚ) ≤ -20 := by
  refine ⟨compute_ok _ _ ?_ ?_ ?_ (Or.inr ?_), ?_, by norm_num⟩
  · simp +decide [safe, mIssuesNew, mget, pyget, toFloatQ, List.lookup]
  · simp +decide [safe, mPrsNew, pyOrQ, mget, pyget, toFloatQ, List.lookup]
  · simp +decide [governanceFilesVal, pygetValD, pyOrVal, pyTruthy, isObjV, List.lookup]
  · simp +decide [scorecardChecksVal, pygetValD, pyOrVal, pyTruthy, isObjV, List.lookup]
  · show scoreRespFirst logModelId
        [(("issues_new"), Val.num (-(1 : ℚ)/2)), (("prs_new"), Val.num 3),
         (("issue_response_time_h"), Val.num 1), (("pr_response_time_h"), Val.num 1000)]
      = some (-20)
    simp +decide [scoreRespFirst, weighted_avg, wI, wP, mIssuesNew, mPrsNew,
      issueFirst, prFirst, prResponseTime, time_score, mget, pyget, toFloatQ,
      pyOrQ, safe, logModelId, clamp, List.lookup]
    norm_num

/-- Witness for C5 at the empty metrics mapping. -/
theorem c5_score_fields_in_range_witness :
    0 ≤ safe (mIssuesNew ([] : Metrics)) ∧ 0 ≤ safe (mPrsNew ([] : Metrics)) ∧
    AllScoresInRange (computeRecord logModelId []) := by
  have h1 : 0 ≤ safe (mIssuesNew ([] : Metrics)) := by
    simp +decide [safe, mIssuesNew, mget, pyget, List.lookup]
  have h2 : 0 ≤ safe (mPrsNew ([] : Metrics)) := by
    simp +decide [safe, mPrsNew, pyOrQ, mget, pyget, List.lookup]
  exact ⟨h1, h2, c5_score_fields_in_range logModelId [] h1 h2⟩

/-- C6: whenever the metric_security_defaulted flag is truthy, compute
fixes score_security = 50 with base 50, critical null and bonus 0,
regardless of every other metric value; and with scorecard_score = 8, no
checks payload and the flag off, compute succeeds with base 80, critical
null, bonus 10 and score_security = (80*0.7 + 10*0.1)/(0.7 + 0.1) =
71.25 = 285/4. -/
theorem c6_security_defaulted_fixed :
    (∀ (L : LogModel) (m : Metrics), securityDefaulted m = true →
      (computeRecord L m).score_security = some 50 ∧
      (computeRecord L m).score_sec_base = some 50 ∧
      (computeRecord L m).score_sec_critical = none ∧
      (computeRecord L m).score_sec_bonus = some 0) ∧
    (∀ L : LogModel,
      compute L [(("scorecard_score"), Val.num 8)]
        = Except.ok (computeRecord L [(("scorecard_score"), Val.num 8)]) ∧
      (computeRecord L [(("scorecard_score"), Val.num 8)]).score_sec_base = some 80 ∧
      (computeRecord L [(("scorecard_score"), Val.num 8)]).score_sec_critical = none ∧
      (computeRecord L [(("scorecard_score"), Val.num 8)]).score_sec_bonus = some 10 ∧
      (computeRecord L [(("scorecard_score"), Val.num 8)]).score_security
        = some (285/4)) := by
  constructor
  · intro L m h
    refine ⟨?_, ?_, ?_, ?_⟩
    · show scoreSecurity m = some 50
      simp [scoreSecurity, h]
    · show scoreSecBase m = some 50
      simp [scoreSecBase, h]
    · show scoreSecCritical m = none
      simp [scoreSecCritical, h]
    · show scoreSecBonus m = some 0
      simp [scoreSecBonus, h]
  · intro L
    refine ⟨compute_ok _ _ ?_ ?_ ?_ (Or.inr ?_), ?_, ?_, ?_, ?_⟩
    · simp +decide [safe, mIssuesNew, mget, pyget, toFloatQ, List.lookup]
    · simp +decide [safe, mPrsNew, pyOrQ, mget, pyget, toFloatQ, List.lookup]
    · simp +decide [governanceFilesVal, pygetValD, pyOrVal, pyTruthy, isObjV, List.lookup]
    · simp +decide [scorecardChecksVal, pygetValD, pyOrVal, pyTruthy, isObjV, List.lookup]
    · show scoreSecBase [(("scorecard_score"), Val.num 8)] = some 80
      simp +decide [scoreSecBase, securityDefaulted, pygetValD, pyTruthy,
        mget, pyget, toFloatQ, safe, clamp, List.lookup]
      norm_num [min_def]
    · show scoreSecCritical [(("scorecard_score"), Val.num 8)] = none
      simp +decide [scoreSecCritical, securityDefaulted, pygetValD, pyTruthy,
        critical_core, scorecardChecksVal, pyOrVal, isObjV, objFields, List.lookup]
    · show scoreSecBonus [(("scorecard_score"), Val.num 8)] = some 10
      simp +decide [scoreSecBonus, securityDefaulted, pygetValD, pyTruthy, List.lookup]
    · show scoreSecurity [(("scorecard_score"), Val.num 8)] = some (285/4)
      simp +decide [scoreSecurity, securityDefaulted, pygetValD, pyTruthy,
        scoreSecBase, scoreSecCritical, scoreSecBonus, critical_core,
        scorecardChecksVal, pyOrVal, isObjV, objFields, weighted_avg,
        mget, pyget, toFloatQ, safe, clamp, List.lookup]
      norm_num [min_def]

/-- Witness for C6 with the flag truthy. -/
theorem c6_security_defaulted_fixed_witness :
    securityDefaulted [(("metric_security_defaulted"), Val.bool true)] = true ∧
    ((computeRecord logModelId
        [(("metric_security_defaulted"), Val.bool true)]).score_security = some 50 ∧
      (computeRecord logModelId
        [(("metric_security_defaulted"), Val.bool true)]).score_sec_base = some 50 ∧
      (computeRecord logModelId
        [(("metric_security_defaulted"), Val.bool true)]).score_sec_critical = none ∧
      (computeRecord logModelId
        [(("metric_security_defaulted"), Val.bool true)]).score_sec_bonus = some 0) := by
  have h : securityDefaulted [(("metric_security_defaulted"), Val.bool true)] = true := by
    simp +decide [securityDefaulted, pygetValD, pyTruthy, List.lookup]
  exact ⟨h, c6_security_defaulted_fixed.1 logModelId _ h⟩

end MetricEngine

namespace MetricEngine

/-- C7 (amended): compute treats a value that fails numeric parsing
exactly as an absent key — shadowing any non-raw key with such a value
cannot change the output — and it returns a record (never raises) whenever
the parsed issues_new/prs_new channel inputs stay above -1 and the
governance-files and scorecard-checks payloads are mappings or falsy.  (The
unamended never-raises claim over arbitrary values is false: a parsed
issues_new of -5 reaches math.log1p outside its domain, see the
counterexample.) -/
theorem c7_malformed_treated_as_absent :
    (∀ (L : LogModel) (rest : Metrics) (k : String) (u : Val),
      toFloatQ u = none → k ∉ rawAccessKeys → List.lookup k rest = none →
      compute L ((k, u) :: rest) = compute L rest) ∧
    (∀ (L : LogModel) (m : Metrics),
      ¬ safe (mIssuesNew m) ≤ -1 → ¬ safe (mPrsNew m) ≤ -1 →
      (pyTruthy (governanceFilesVal m) && !isObjV (governanceFilesVal m)) = false →
      (pyTruthy (scorecardChecksVal m) && !isObjV (scorecardChecksVal m)) = false →
      compute L m = Except.ok (computeRecord L m)) := by
  constructor
  · intro L rest k u hku hk hr
    exact compute_shadow L rest k u hku hk hr
  · intro L m h1 h2 h3 h4
    exact compute_ok L m h1 h2 (by simp [h3]) (Or.inr (by simp [h4]))

/-- C7 counterexample: a metrics dictionary whose issues_new parses to -5
makes compute raise ValueError (math domain error) from log1p, so compute
does not return a record for every arbitrary-valued input. -/
theorem c7_counterexample :
    compute logModelId [(("issues_new"), Val.num (-5))]
      = Except.error ("math domain error") := rfl

/-- Witness for C7: an unparseable value shadowing the openrank key of the
empty mapping leaves compute's output unchanged, and the empty mapping
itself satisfies the no-raise conditions. -/
theorem c7_malformed_treated_as_absent_witness :
    (toFloatQ (Val.obj []) = none ∧ ("openrank") ∉ rawAccessKeys ∧
      List.lookup ("openrank") ([] : Metrics) = none ∧
      compute logModelId [(("openrank"), Val.obj [])] = compute logModelId []) ∧
    (¬ safe (mIssuesNew ([] : Metrics)) ≤ -1 ∧ ¬ safe (mPrsNew ([] : Metrics)) ≤ -1 ∧
      (pyTruthy (governanceFilesVal []) && !isObjV (governanceFilesVal [])) = false ∧
      (pyTruthy (scorecardChecksVal []) && !isObjV (scorecardChecksVal [])) = false ∧
      compute logModelId [] = Except.ok (computeRecord logModelId [])) := by
  have ha : toFloatQ (Val.obj []) = none := rfl
  have hb : ("openrank") ∉ rawAccessKeys := by simp [rawAccessKeys]
  have hc : List.lookup ("openrank") ([] : Metrics) = none := rfl
  have h1 : ¬ safe (mIssuesNew ([] : Metrics)) ≤ -1 := by
    simp +decide [safe, mIssuesNew, mget, pyget, List.lookup]
  have h2 : ¬ safe (mPrsNew ([] : Metrics)) ≤ -1 := by
    simp +decide [safe, mPrsNew, pyOrQ, mget, pyget, List.lookup]
  have h3 : (pyTruthy (governanceFilesVal []) && !isObjV (governanceFilesVal [])) = false := by
    simp +decide [governanceFilesVal, pygetValD, pyOrVal, pyTruthy, isObjV, List.lookup]
  have h4 : (pyTruthy (scorecardChecksVal []) && !isObjV (scorecardChecksVal [])) = false := by
    simp +decide [scorecardChecksVal, pygetValD, pyOrVal, pyTruthy, isObjV, List.lookup]
  exact ⟨⟨ha, hb, hc,
      c7_malformed_treated_as_absent.1 logModelId [] ("openrank") (Val.obj []) ha hb hc⟩,
    ⟨h1, h2, h3, h4, c7_malformed_treated_as_absent.2 logModelId [] h1 h2 h3 h4⟩⟩

/-- C9: when the three responsiveness sub-scores of the returned record are
all null while the raw activity metric parsed to a positive number, the
Responsiveness dimension score is exactly 50 rather than null. -/
theorem c9_responsiveness_activity_fallback (L : LogModel) (m : Metrics) (a : ℚ)
    (hf : (computeRecord L m).score_resp_first = none)
    (hc : (computeRecord L m).score_resp_close = none)
    (hb : (computeRecord L m).score_resp_backlog = none)
    (ha : (computeRecord L m).metric_activity = some a) (hpos : 0 < a) :
    (computeRecord L m).score_responsiveness = some 50 := by
  have hf' : scoreRespFirst L m = none := hf
  have hc' : scoreRespClose L m = none := hc
  have hb' : scoreRespBacklog L m = none := hb
  have ha' : mActivity m = some a := ha
  show scoreResponsiveness L m = some 50
  unfold scoreResponsiveness
  rw [hf', hc', hb']
  have hnone : weighted_avg [none, none, none] [0.45, 0.35, 0.20] = (none : Option ℚ) := by
    norm_num [weighted_avg]
  rw [hnone, ha']
  simp [safe, hpos]

/-- Witness for C9 at a metrics mapping with only a positive activity. -/
theorem c9_responsiveness_activity_fallback_witness :
    (computeRecord logModelId [(("activity"), Val.num 5)]).score_resp_first = none ∧
    (computeRecord logModelId [(("activity"), Val.num 5)]).score_resp_close = none ∧
    (computeRecord logModelId [(("activity"), Val.num 5)]).score_resp_backlog = none ∧
    (computeRecord logModelId [(("activity"), Val.num 5)]).metric_activity = some 5 ∧
    (0 : ℚ) < 5 ∧
    (computeRecord logModelId [(("activity"), Val.num 5)]).score_responsiveness = some 50 := by
  have hf : (computeRecord logModelId [(("activity"), Val.num 5)]).score_resp_first = none := by
    show scoreRespFirst logModelId [(("activity"), Val.num 5)] = none
    simp +decide [scoreRespFirst, weighted_avg, wI, wP, mIssuesNew, mPrsNew,
      pyOrQ, mget, pyget, toFloatQ, safe, logModelId, List.lookup]
  have hc : (computeRecord logModelId [(("activity"), Val.num 5)]).score_resp_close = none := by
    show scoreRespClose logModelId [(("activity"), Val.num 5)] = none
    simp +decide [scoreRespClose, weighted_avg, wI, wP, mIssuesNew, mPrsNew,
      pyOrQ, mget, pyget, toFloatQ, safe, logModelId, List.lookup]
  have hb : (computeRecord logModelId [(("activity"), Val.num 5)]).score_resp_backlog = none := by
    show scoreRespBacklog logModelId [(("activity"), Val.num 5)] = none
    simp +decide [scoreRespBacklog, weighted_avg, wI, wP, mIssuesNew, mPrsNew,
      pyOrQ, mget, pyget, toFloatQ, safe, logModelId, List.lookup]
  have ha : (computeRecord logModelId [(("activity"), Val.num 5)]).metric_activity = some 5 := by
    show mActivity [(("activity"), Val.num 5)] = some 5
    simp +decide [mActivity, mget, pyget, toFloatQ, List.lookup]
  exact ⟨hf, hc, hb, ha, by norm_num,
    c9_responsiveness_activity_fallback logModelId _ 5 hf hc hb ha (by norm_num)⟩

theorem weighted_avg_isSome_of (scores : List (Option ℚ)) (weights : List ℚ)
    (hsum : 0 < weights.sum) (hw : ∀ w ∈ weights, 0 ≤ w)
    (p : ℚ × ℚ) (hp : p ∈ survivingPairs scores weights) (hppos : 0 < p.2) :
    (weighted_avg scores weights).isSome = true := by
  rw [weighted_avg_eq]
  have hall : ∀ x ∈ (survivingPairs scores weights).map Prod.snd, 0 ≤ x := by
    intro x hx
    rcases List.mem_map.mp hx with ⟨r, hr, hrx⟩
    exact hrx ▸ hw r.2 (surv_mem scores weights r hr).2
  have heff : 0 < ((survivingPairs scores weights).map Prod.snd).sum :=
    lt_of_lt_of_le hppos
      (List.single_le_sum hall _ (List.mem_map.mpr ⟨p, hp, rfl⟩))
  simp [not_le.mpr hsum, ne_of_gt heff]

theorem gov_isSome (L : LogModel) (m : Metrics) :
    (scoreGovernance L m).isSome = true := by
  unfold scoreGovernance
  cases h : weighted_avg [scoreGovFiles m, scoreGovProcess L m, scoreGovTransparency m]
      [0.45, 0.35, 0.20] with
  | none => simp [clamp]
  | some q => simp

theorem sec_isSome (m : Metrics) : (scoreSecurity m).isSome = true := by
  unfold scoreSecurity
  by_cases h : securityDefaulted m
  · simp [h]
  · simp only [h, if_false]
    cases hb : weighted_avg [scoreSecBase m, scoreSecCritical m, scoreSecBonus m]
        [0.7, 0.2, 0.1] with
    | none => simp
    | some q => simp

/-- C10: for every input and every log model, the returned record always
has a present (non-null) transparency component, Governance score, Security
score and overall Health score. -/
theorem c10_governance_security_health_present (L : LogModel) (m : Metrics) :
    ((computeRecord L m).score_gov_transparency).isSome = true ∧
    ((computeRecord L m).score_governance).isSome = true ∧
    ((computeRecord L m).score_security).isSome = true ∧
    ((computeRecord L m).score_health).isSome = true := by
  refine ⟨by simp [computeRecord, scoreGovTransparency], gov_isSome L m, sec_isSome m, ?_⟩
  show (scoreHealth L m).isSome = true
  rcases Option.isSome_iff_exists.mp (gov_isSome L m) with ⟨g, hg⟩
  unfold scoreHealth
  refine weighted_avg_isSome_of _ _ (by norm_num) ?_ (g, 0.15) ?_ (by norm_num)
  · intro w hw
    fin_cases hw <;> norm_num
  · unfold survivingPairs
    refine List.mem_filterMap.mpr ⟨(some g, 0.15), ?_, by simp⟩
    simp [List.zip, hg]

end MetricEngine

namespace Composite

theorem wsum_foldl (scores : List (String × Option ℚ)) (weights : List (String × ℚ))
    (a b : ℚ) :
    weights.foldl (fun acc kw =>
        match (List.lookup kw.1 scores).bind id with
        | none => acc
        | some s => (acc.1 + kw.2 * s, acc.2 + kw.2)) (a, b)
      = (a + (((weights.map (fun kw => ((List.lookup kw.1 scores).bind id, kw.2))).filterMap
            (fun p => p.1.map (fun s => (s, p.2)))).map (fun q => q.1 * q.2)).sum,
         b + (((weights.map (fun kw => ((List.lookup kw.1 scores).bind id, kw.2))).filterMap
            (fun p => p.1.map (fun s => (s, p.2)))).map Prod.snd).sum) := by
  induction weights generalizing a b with
  | nil => simp
  | cons kw t ih =>
    cases h : (List.lookup kw.1 scores).bind id with
    | none =>
      simp only [List.foldl_cons, List.map_cons, List.filterMap_cons, h,
        Option.map_none']
      exact ih a b
    | some s =>
      simp only [List.foldl_cons, List.map_cons, List.filterMap_cons, h,
        Option.map_some', List.map_cons, List.sum_cons]
      rw [ih]
      exact Prod.ext (by ring) (by ring)

theorem weighted_sum_eq (scores : List (String × Option ℚ)) (weights : List (String × ℚ)) :
    weighted_sum scores weights
      = bareWeightedSumSpec (weights.map (fun kw => ((List.lookup kw.1 scores).bind id, kw.2))) := by
  unfold weighted_sum bareWeightedSumSpec
  rw [wsum_foldl]
  simp

theorem seriesLoop_length (rows : List (String × Payload)) (wd : ℕ) (keys : List String)
    (w : List (String × ℚ)) (dir : String → Bool) :
    (seriesLoop rows wd keys w dir).length = rows.length := by
  simp [seriesLoop]

theorem seriesLoop_value (rows : List (String × Payload)) (wd : ℕ) (keys : List String)
    (w : List (String × ℚ)) (dir : String → Bool) (i : ℕ)
    (hi : i < (seriesLoop rows wd keys w dir).length) :
    ((seriesLoop rows wd keys w dir).get ⟨i, hi⟩).value
      = bareWeightedSumSpec (w.map (fun kw => ((List.lookup kw.1
          (keys.map (fun k => (k, compSubScore rows wd k i (dir k))))).bind id, kw.2))) := by
  have hk : ((seriesLoop rows wd keys w dir).get ⟨i, hi⟩)
      = { dt := (rows.map Prod.fst).getD i ""
          value := weighted_sum
            (keys.map (fun k =>
              (k, normalize ((alignedVals rows k).getD i none)
                (rolling_window (alignedVals rows k) i wd) (dir k))))
            w } := by
    unfold seriesLoop
    simp only [List.get_eq_getElem, List.getElem_map, List.getElem_range]
  rw [hk]
  rw [weighted_sum_eq]
  rfl

/-- C1 (amended): for every date of each composite series — Vitality,
Responsiveness and Resilience — the composite value is the BARE weighted
sum over the surviving (non-null) normalized sub-scores with the fixed
weights (null when no positively-weighted sub-score survives); a null
sub-score is dropped from the sum, but the accumulator is not divided by
the sum of the surviving weights (see the counterexample against the
renormalized-average reading). -/
theorem c1_composite_value_is_bare_weighted_sum :
    (∀ (rows : List (String × Payload)) (wd : ℕ) (wo : Option (List (String × ℚ)))
      (i : ℕ) (hi : i < (compute_vitality_series rows wd wo).1.length),
      ((compute_vitality_series rows wd wo).1.get ⟨i, hi⟩).value
        = bareWeightedSumSpec ((weightsOrDefault wo vitalityDefaultW).map
            (fun kw => ((List.lookup kw.1 (vitalityKeys.map
              (fun k => (k, compSubScore rows wd k i true)))).bind id, kw.2)))) ∧
    (∀ (rows : List (String × Payload)) (wd : ℕ) (wo : Option (List (String × ℚ)))
      (i : ℕ) (hi : i < (compute_responsiveness_series rows wd wo).1.length),
      ((compute_responsiveness_series rows wd wo).1.get ⟨i, hi⟩).value
        = bareWeightedSumSpec ((weightsOrDefault wo respDefaultW).map
            (fun kw => ((List.lookup kw.1 (respKeys.map
              (fun k => (k, compSubScore rows wd k i false)))).bind id, kw.2)))) ∧
    (∀ (rows : List (String × Payload)) (wd : ℕ) (wo : Option (List (String × ℚ)))
      (i : ℕ) (hi : i < (compute_resilience_series rows wd wo).1.length),
      ((compute_resilience_series rows wd wo).1.get ⟨i, hi⟩).value
        = bareWeightedSumSpec ((weightsOrDefault wo resilienceDefaultW).map
            (fun kw => ((List.lookup kw.1 (resilienceKeys.map
              (fun k => (k, compSubScore rows wd k i (resilienceDir k))))).bind id, kw.2)))) := by
  refine ⟨?_, ?_, ?_⟩
  · intro rows wd wo i hi
    exact seriesLoop_value rows wd vitalityKeys (weightsOrDefault wo vitalityDefaultW)
      (fun _ => true) i hi
  · intro rows wd wo i hi
    exact seriesLoop_value rows wd respKeys (weightsOrDefault wo respDefaultW)
      (fun _ => false) i hi
  · intro rows wd wo i hi
    exact seriesLoop_value rows wd resilienceKeys (weightsOrDefault wo resilienceDefaultW)
      resilienceDir i hi

end Composite

namespace Composite

/-- C1 counterexample: one date whose only present sub-score is
metric_activity (normalized to the neutral 50 against its size-1 window);
the code returns the bare weighted sum 0.45 * 50 = 22.5 while the claimed
renormalized weighted average of the same surviving sub-scores is 50. -/
theorem c1_counterexample :
    ((compute_vitality_series
        [(("2024-01-01"), [(("metric_activity"), some (5 : ℚ))])] 180 none).1.map
      (fun p => p.value)) = [some (45/2)] ∧
    compSubScore [(("2024-01-01"), [(("metric_activity"), some (5 : ℚ))])] 180
      ("metric_activity") 0 true = some 50 ∧
    weightedAvgSpec [(some 50, 0.45), (none, 0.25), (none, 0.20), (none, 0.10)]
      = some 50 ∧
    ((45 : ℚ)/2) ≠ 50 := by
  refine ⟨?_, ?_, ?_, by norm_num⟩
  · simp +decide [Composite.compute_vitality_series, Composite.seriesLoop,
      Composite.weightsOrDefault, Composite.vitalityDefaultW, Composite.vitalityKeys,
      Composite.weighted_sum, Composite.normalize, Composite.alignedVals,
      Composite.pgetQ, Composite.rolling_window, Composite.percentiles, sortedAsc,
      interpAt, Composite.clip01, List.lookup, List.range_succ]
    norm_num
  · simp +decide [Composite.compSubScore, Composite.normalize, Composite.alignedVals,
      Composite.pgetQ, Composite.rolling_window, Composite.percentiles, sortedAsc,
      interpAt, Composite.clip01, List.lookup]
  · simp +decide [Composite.weightedAvgSpec]
    norm_num

/-- Witness for C1 at the same one-row series, date index 0. -/
theorem c1_composite_value_is_bare_weighted_sum_witness :
    (0 < (compute_vitality_series
        [(("2024-01-01"), [(("metric_activity"), some (5 : ℚ))])] 180 none).1.length) ∧
    ∃ hi : 0 < (compute_vitality_series
        [(("2024-01-01"), [(("metric_activity"), some (5 : ℚ))])] 180 none).1.length,
      ((compute_vitality_series
          [(("2024-01-01"), [(("metric_activity"), some (5 : ℚ))])] 180 none).1.get
        ⟨0, hi⟩).value
        = bareWeightedSumSpec ((weightsOrDefault none vitalityDefaultW).map
            (fun kw => ((List.lookup kw.1 (vitalityKeys.map
              (fun k => (k, compSubScore
                [(("2024-01-01"), [(("metric_activity"), some (5 : ℚ))])] 180 k 0 true)))).bind
              id, kw.2))) := by
  have hlen : 0 < (compute_vitality_series
      [(("2024-01-01"), [(("metric_activity"), some (5 : ℚ))])] 180 none).1.length := by
    simp [Composite.compute_vitality_series, Composite.seriesLoop]
  exact ⟨hlen, hlen,
    c1_composite_value_is_bare_weighted_sum.1
      [(("2024-01-01"), [(("metric_activity"), some (5 : ℚ))])] 180 none 0 hlen⟩

end Composite

theorem sortedAsc_sorted (l : List ℚ) : (sortedAsc l).Sorted (fun a b => a ≤ b) := by
  have h := @List.sorted_mergeSort ℚ (fun a b : ℚ => decide (a ≤ b))
    (fun a b c hab hbc => by
      simp only [decide_eq_true_eq] at hab hbc ⊢
      exact le_trans hab hbc)
    (fun a b => by
      simp only [Bool.or_eq_true, decide_eq_true_eq]
      exact le_total a b) l
  exact h.imp (fun hab => by simpa using hab)

theorem sortedAsc_length (l : List ℚ) : (sortedAsc l).length = l.length :=
  (List.mergeSort_perm l _).length_eq

theorem sortedAsc_eq_self (l : List ℚ) (h : l.Sorted (fun a b => a ≤ b)) :
    sortedAsc l = l :=
  List.eq_of_perm_of_sorted (List.mergeSort_perm l _) (sortedAsc_sorted l) h

theorem sorted_getD_mono (l : List ℚ) (hs : l.Sorted (fun a b => a ≤ b)) (i j : ℕ)
    (hij : i ≤ j) (hj : j < l.length) : l.getD i 0 ≤ l.getD j 0 := by
  have hi : i < l.length := lt_of_le_of_lt hij hj
  rw [List.getD_eq_getElem l 0 hi, List.getD_eq_getElem l 0 hj]
  have h2 := @List.Sorted.rel_get_of_le ℚ (fun a b => a ≤ b) _ l hs ⟨i, hi⟩ ⟨j, hj⟩
    (by exact hij)
  simpa using h2

theorem interpAt_between (sa : List ℚ) (hs : sa.Sorted (fun a b => a ≤ b)) (k : ℚ)
    (h0 : 0 ≤ k) (hn : k ≤ (sa.length : ℚ) - 1) :
    sa.getD (Int.floor k).toNat 0 ≤ interpAt sa k ∧
    interpAt sa k ≤ sa.getD (Int.ceil k).toNat 0 := by
  have hfl : (0 : ℤ) ≤ Int.floor k := Int.floor_nonneg.mpr h0
  have hcl : Int.ceil k ≤ (sa.length : ℤ) - 1 := by
    refine Int.ceil_le.mpr ?_
    push_cast
    exact hn
  have hlen1 : 1 ≤ sa.length := by
    by_contra hcon
    have h00 : sa.length = 0 := by omega
    rw [h00] at hn
    norm_num at hn
    linarith
  have hcn : (Int.ceil k).toNat < sa.length := by omega
  have hfc : Int.floor k ≤ Int.ceil k := Int.floor_le_ceil k
  have hfn : (Int.floor k).toNat < sa.length := by omega
  by_cases h : Int.floor k = Int.ceil k
  · unfold interpAt
    rw [if_pos h]
    constructor
    · exact le_refl _
    · rw [h]
  · unfold interpAt
    rw [if_neg h]
    have hco : (0 : ℚ) ≤ (Int.ceil k : ℚ) - k := sub_nonneg.mpr (Int.le_ceil k)
    have hfo : (0 : ℚ) ≤ k - (Int.floor k : ℚ) := sub_nonneg.mpr (Int.floor_le k)
    have hc1 : Int.ceil k = Int.floor k + 1 := by
      have := Int.ceil_le_floor_add_one k
      omega
    have hsum : ((Int.ceil k : ℚ) - k) + (k - (Int.floor k : ℚ)) = 1 := by
      rw [hc1]
      push_cast
      ring
    have hle : sa.getD (Int.floor k).toNat 0 ≤ sa.getD (Int.ceil k).toNat 0 :=
      sorted_getD_mono sa hs _ _ (by omega) hcn
    set A := sa.getD (Int.floor k).toNat 0 with hA
    set B := sa.getD (Int.ceil k).toNat 0 with hB
    set u := (Int.ceil k : ℚ) - k with hu
    set v := k - (Int.floor k : ℚ) with hv
    constructor
    · have e1 : A * u + B * v - A = (B - A) * v := by linear_combination A * hsum
      have e2 : 0 ≤ (B - A) * v := mul_nonneg (sub_nonneg.mpr hle) hfo
      linarith
    · have e1 : B - (A * u + B * v) = (B - A) * u := by linear_combination (-B) * hsum
      have e2 : 0 ≤ (B - A) * u := mul_nonneg (sub_nonneg.mpr hle) hco
      linarith

theorem interpAt_mono (sa : List ℚ) (hs : sa.Sorted (fun a b => a ≤ b)) (k k' : ℚ)
    (h0 : 0 ≤ k) (hkk : k ≤ k') (hn : k' ≤ (sa.length : ℚ) - 1) :
    interpAt sa k ≤ interpAt sa k' := by
  have h0' : 0 ≤ k' := le_trans h0 hkk
  have hnk : k ≤ (sa.length : ℚ) - 1 := le_trans hkk hn
  have hb := interpAt_between sa hs k h0 hnk
  have hb' := interpAt_between sa hs k' h0' hn
  have hfl' : (0 : ℤ) ≤ Int.floor k' := Int.floor_nonneg.mpr h0'
  have hfn' : (Int.floor k').toNat < sa.length := by
    have h2 : ((Int.floor k' : ℤ) : ℚ) ≤ (((sa.length : ℤ) - 1 : ℤ) : ℚ) := by
      push_cast
      linarith [Int.floor_le k']
    have h3 : Int.floor k' ≤ (sa.length : ℤ) - 1 := by exact_mod_cast h2
    omega
  by_cases hcase : Int.ceil k ≤ Int.floor k'
  · have hmid : sa.getD (Int.ceil k).toNat 0 ≤ sa.getD (Int.floor k').toNat 0 :=
      sorted_getD_mono sa hs _ _ (by omega) hfn'
    exact le_trans hb.2 (le_trans hmid hb'.1)
  · push_neg at hcase
    have hff : Int.floor k ≤ Int.floor k' := Int.floor_le_floor hkk
    have hcfa : Int.ceil k ≤ Int.floor k + 1 := Int.ceil_le_floor_add_one k
    have hfc : Int.floor k ≤ Int.ceil k := Int.floor_le_ceil k
    have hfeq : Int.floor k' = Int.floor k := by omega
    by_cases hint : Int.floor k = Int.ceil k
    · exfalso
      omega
    · have hceq : Int.ceil k = Int.floor k + 1 := by omega
      by_cases hint2 : Int.floor k' = Int.ceil k'
      · have h1 : k' ≤ ((Int.floor k' : ℤ) : ℚ) := by
          rw [hint2]
          exact Int.le_ceil k'
        have h2 : ((Int.floor k' : ℤ) : ℚ) ≤ k := by
          rw [hfeq]
          exact Int.floor_le k
        have h3 : k = k' := le_antisymm hkk (le_trans h1 h2)
        rw [h3]
      · have hceq2 : Int.ceil k' = Int.floor k' + 1 := by
          have ha := Int.ceil_le_floor_add_one k'
          have hb2 := Int.floor_le_ceil k'
          omega
        unfold interpAt
        rw [if_neg hint, if_neg hint2, hceq, hceq2, hfeq]
        have hcl2 : Int.ceil k' ≤ (sa.length : ℤ) - 1 := by
          refine Int.ceil_le.mpr ?_
          push_cast
          exact hn
        have hcc : ((Int.floor k + 1 : ℤ)).toNat < sa.length := by omega
        have hfl : (0 : ℤ) ≤ Int.floor k := Int.floor_nonneg.mpr h0
        have hle2 : sa.getD (Int.floor k).toNat 0 ≤ sa.getD ((Int.floor k + 1 : ℤ)).toNat 0 :=
          sorted_getD_mono sa hs _ _ (by omega) hcc
        set A := sa.getD (Int.floor k).toNat 0 with hA
        set B := sa.getD ((Int.floor k + 1 : ℤ)).toNat 0 with hB
        push_cast
        have e2 : 0 ≤ (B - A) * (k' - k) :=
          mul_nonneg (sub_nonneg.mpr hle2) (sub_nonneg.mpr hkk)
        nlinarith [e2]

namespace Composite

theorem percentiles_le (arr : List ℚ) : (percentiles arr).1 ≤ (percentiles arr).2 := by
  unfold percentiles
  by_cases h : arr.isEmpty
  · simp [h]
  · simp only [h, Bool.false_eq_true, if_false]
    have hne : arr ≠ [] := by
      intro hcon
      simp [hcon] at h
    have hlen : 1 ≤ arr.length := by
      cases arr with
      | nil => exact absurd rfl hne
      | cons a t => simp
    have hlen2 : (sortedAsc arr).length = arr.length := sortedAsc_length arr
    have h1q : (1 : ℚ) ≤ (arr.length : ℚ) := by exact_mod_cast hlen
    refine interpAt_mono (sortedAsc arr) (sortedAsc_sorted arr) _ _ ?_ ?_ ?_
    · exact div_nonneg (mul_nonneg (by linarith) (by norm_num)) (by norm_num)
    · have : (0 : ℚ) ≤ (arr.length : ℚ) - 1 := by linarith
      nlinarith
    · rw [hlen2]
      nlinarith

/-- C8: the percentile normalization behind the composite series is
monotonic in the raw value over any fixed window whose percentile bounds do
not collapse — non-decreasing when higher is better, non-increasing when
lower is better, and always returning a value there; and when the bounds
collapse it returns the neutral 50 for both directions (the function is
total in the model: it neither throws nor produces NaN). -/
theorem c8_percentile_normalize_monotone :
    (∀ (win : List ℚ) (q q' : ℚ), win ≠ [] →
      (percentiles win).1 ≠ (percentiles win).2 → q ≤ q' →
      ((normalize (some q) win true).getD 0 ≤ (normalize (some q') win true).getD 0 ∧
       (normalize (some q') win false).getD 0 ≤ (normalize (some q) win false).getD 0 ∧
       (normalize (some q) win true).isSome = true ∧
       (normalize (some q) win false).isSome = true)) ∧
    (∀ (win : List ℚ) (v : ℚ), win ≠ [] →
      (percentiles win).1 = (percentiles win).2 →
      normalize (some v) win true = some 50 ∧ normalize (some v) win false = some 50) := by
  constructor
  · intro win q q' hne hpp hqq
    have hie : win.isEmpty = false := by
      cases win with
      | nil => exact absurd rfl hne
      | cons a t => rfl
    have hlh : (percentiles win).1 < (percentiles win).2 :=
      lt_of_le_of_ne (percentiles_le win) hpp
    have hd : 0 < (percentiles win).2 - (percentiles win).1 := by linarith
    have hne2 : ¬ (percentiles win).2 = (percentiles win).1 := fun h => hpp h.symm
    have hmono : clip01 ((q - (percentiles win).1) / ((percentiles win).2 - (percentiles win).1))
        ≤ clip01 ((q' - (percentiles win).1) / ((percentiles win).2 - (percentiles win).1)) := by
      unfold clip01
      have hdiv : (q - (percentiles win).1) / ((percentiles win).2 - (percentiles win).1)
          ≤ (q' - (percentiles win).1) / ((percentiles win).2 - (percentiles win).1) :=
        (div_le_div_iff_of_pos_right hd).mpr (by linarith)
      exact max_le_max (le_refl 0) (min_le_min (le_refl 1) hdiv)
    unfold normalize
    simp only [hie, Bool.false_eq_true, if_false, hne2, if_true, if_false]
    refine ⟨?_, ?_, ?_, ?_⟩
    · simp only [Option.getD_some]
      exact mul_le_mul_of_nonneg_right hmono (by norm_num)
    · simp only [Option.getD_some]
      have h2 := mul_le_mul_of_nonneg_right hmono ((by norm_num : (0 : ℚ) ≤ 100))
      nlinarith [h2]
    · simp
    · simp
  · intro win v hne hpp
    have hie : win.isEmpty = false := by
      cases win with
      | nil => exact absurd rfl hne
      | cons a t => rfl
    unfold normalize
    simp only [hie, Bool.false_eq_true, if_false, hpp.symm, if_true]
    exact ⟨trivial, trivial⟩

end Composite

namespace Composite

theorem percentiles_pair_eval : percentiles [(0 : ℚ), 10] = (1, 9) := by
  have hsort : sortedAsc [(0 : ℚ), 10] = [0, 10] := by
    refine sortedAsc_eq_self _ ?_
    simp only [List.sorted_cons, List.mem_singleton, List.sorted_singleton]
    norm_num
  unfold percentiles
  simp only [List.isEmpty_cons, Bool.false_eq_true, if_false, hsort]
  have e1 : (((List.length [(0 : ℚ), 10] : ℕ) : ℚ) - 1) * 10 / 100 = 1/10 := by
    norm_num
  have e2 : (((List.length [(0 : ℚ), 10] : ℕ) : ℚ) - 1) * 90 / 100 = 9/10 := by
    norm_num
  rw [e1, e2]
  have hf1 : Int.floor ((1 : ℚ)/10) = 0 := by
    rw [Int.floor_eq_iff]
    norm_num
  have hc1 : Int.ceil ((1 : ℚ)/10) = 1 := by
    rw [Int.ceil_eq_iff]
    norm_num
  have hf2 : Int.floor ((9 : ℚ)/10) = 0 := by
    rw [Int.floor_eq_iff]
    norm_num
  have hc2 : Int.ceil ((9 : ℚ)/10) = 1 := by
    rw [Int.ceil_eq_iff]
    norm_num
  unfold interpAt
  rw [hf1, hc1, hf2, hc2]
  norm_num [List.getD]

theorem percentiles_single_eval : percentiles [(7 : ℚ)] = (7, 7) := by
  unfold percentiles
  simp only [List.isEmpty_cons, Bool.false_eq_true, if_false, sortedAsc,
    List.mergeSort_singleton]
  have e1 : (((List.length [(7 : ℚ)] : ℕ) : ℚ) - 1) * 10 / 100 = 0 := by norm_num
  have e2 : (((List.length [(7 : ℚ)] : ℕ) : ℚ) - 1) * 90 / 100 = 0 := by norm_num
  rw [e1, e2]
  unfold interpAt
  norm_num

/-- Witness for C8 on the window 0..10 (non-degenerate) at values 3 and 4,
and on the singleton window 7 (degenerate). -/
theorem c8_percentile_normalize_monotone_witness :
    (([(0 : ℚ), 10]) ≠ [] ∧
     (percentiles [(0 : ℚ), 10]).1 ≠ (percentiles [(0 : ℚ), 10]).2 ∧ (3 : ℚ) ≤ 4 ∧
     ((normalize (some 3) [(0 : ℚ), 10] true).getD 0
        ≤ (normalize (some 4) [(0 : ℚ), 10] true).getD 0 ∧
      (normalize (some 4) [(0 : ℚ), 10] false).getD 0
        ≤ (normalize (some 3) [(0 : ℚ), 10] false).getD 0 ∧
      (normalize (some 3) [(0 : ℚ), 10] true).isSome = true ∧
      (normalize (some 3) [(0 : ℚ), 10] false).isSome = true)) ∧
    (([(7 : ℚ)]) ≠ [] ∧
     (percentiles [(7 : ℚ)]).1 = (percentiles [(7 : ℚ)]).2 ∧
     (normalize (some 3) [(7 : ℚ)] true = some 50 ∧
      normalize (some 3) [(7 : ℚ)] false = some 50)) := by
  have hne1 : ([(0 : ℚ), 10]) ≠ [] := by simp
  have hpp1 : (percentiles [(0 : ℚ), 10]).1 ≠ (percentiles [(0 : ℚ), 10]).2 := by
    rw [percentiles_pair_eval]
    norm_num
  have hq : (3 : ℚ) ≤ 4 := by norm_num
  have hne2 : ([(7 : ℚ)]) ≠ [] := by simp
  have hpp2 : (percentiles [(7 : ℚ)]).1 = (percentiles [(7 : ℚ)]).2 := by
    rw [percentiles_single_eval]
  exact ⟨⟨hne1, hpp1, hq,
      c8_percentile_normalize_monotone.1 [(0 : ℚ), 10] 3 4 hne1 hpp1 hq⟩,
    ⟨hne2, hpp2, c8_percentile_normalize_monotone.2 [(7 : ℚ)] 3 hne2 hpp2⟩⟩

end Composite

namespace Newcomer

theorem norm_hi_collapsed (v p : Option ℚ) : norm_hi v p p = none := by
  unfold norm_hi
  cases v <;> cases p <;> simp

theorem norm_lo_collapsed (v p : Option ℚ) : norm_lo v p p = none := by
  unfold norm_lo
  cases v <;> cases p <;> simp

theorem respComponent_collapsed (metrics : RepoMetrics) (p : Option ℚ) :
    respComponent metrics (p, p) = none := by
  unfold respComponent
  rw [norm_lo_collapsed, norm_lo_collapsed, norm_lo_collapsed, norm_lo_collapsed]
  unfold weighted
  simp

theorem activityComponent_collapsed (metrics : RepoMetrics) (p : Option ℚ) :
    activityComponent metrics (p, p) = none := by
  unfold activityComponent
  rw [norm_hi_collapsed, norm_hi_collapsed, norm_hi_collapsed]
  unfold weighted
  simp

/-- C2 (amended): when the percentile bounds of the cohort collapse (in
particular for a cohort of one candidate), the response and activity
components of the readiness score are null and are dropped from the blend
— no error and no NaN arises, and the readiness score renormalizes over
the surviving task-supply and onboarding components:
(0.25 * supply + 0.20 * onboarding) / 0.45. -/
theorem c2_collapsed_cohort_drops_components (L : LogModel) (metrics : RepoMetrics)
    (stats : IssueStats) (docs : DocInfo) (p q : Option ℚ)
    (sp : Option ℚ × Option ℚ) :
    respComponent metrics (p, p) = none ∧
    activityComponent metrics (q, q) = none ∧
    readiness_score L metrics stats docs (p, p) (q, q) sp
      = (0.25 * supplyComponent L stats sp + 0.20 * onboardingComponent docs) / 0.45 := by
  refine ⟨respComponent_collapsed metrics p, activityComponent_collapsed metrics q, ?_⟩
  unfold readiness_score
  rw [respComponent_collapsed, activityComponent_collapsed]
  simp only [List.filterMap_cons, Option.map_none', Option.map_some',
    List.filterMap_nil, List.isEmpty_cons, Bool.false_eq_true, if_false,
    List.map_cons, List.map_nil, List.sum_cons, List.sum_nil]
  norm_num
  ring

theorem percentile_singleton (x pct : ℚ) : percentile [x] pct = some x := by
  unfold percentile
  simp only [sortedAsc, List.mergeSort_singleton, List.isEmpty_cons,
    Bool.false_eq_true, if_false]
  have e : (((List.length [x] : ℕ) : ℚ) - 1) * pct / 100 = 0 := by norm_num
  rw [e]
  unfold interpAt
  norm_num

/-- C2 counterexample: for a cohort of one candidate the percentile bounds
collapse to the single value, norm_lo returns None (not a neutral
midpoint), and the response and activity components of the readiness score
are None — i.e. silently absent from the blend, contradicting the claim
that they equal the neutral midpoint value. -/
theorem c2_counterexample :
    percentile [10] 10 = some 10 ∧ percentile [10] 90 = some 10 ∧
    norm_lo (some 10) (some 10) (some 10) = none ∧
    respComponent
      { repo_full_name := ("r"), dt := none,
        metric_issue_response_time_h := some 10, metric_pr_response_time_h := none,
        metric_issue_age_h := none, metric_pr_age_h := none,
        metric_activity_3m := some 7, metric_activity_growth := none,
        metric_new_contributors := none, metric_openrank := none }
      (percentile [10] 10, percentile [10] 90) = none ∧
    activityComponent
      { repo_full_name := ("r"), dt := none,
        metric_issue_response_time_h := some 10, metric_pr_response_time_h := none,
        metric_issue_age_h := none, metric_pr_age_h := none,
        metric_activity_3m := some 7, metric_activity_growth := none,
        metric_new_contributors := none, metric_openrank := none }
      (percentile [7] 10, percentile [7] 90) = none := by
  refine ⟨percentile_singleton 10 10, percentile_singleton 10 90, ?_, ?_, ?_⟩
  · exact norm_lo_collapsed (some 10) (some 10)
  · rw [percentile_singleton, percentile_singleton]
    exact respComponent_collapsed _ (some 10)
  · rw [percentile_singleton, percentile_singleton]
    exact activityComponent_collapsed _ (some 7)

theorem isSubRun_nil (l : List Char) : isSubRun [] l = true := by
  cases l with
  | nil => rfl
  | cons c t => simp [isSubRun, List.isPrefixOf]

theorem containsHit_empty_target (values : List String) :
    containsHit values ("") = !values.isEmpty := by
  unfold containsHit
  cases values with
  | nil => rfl
  | cons v t =>
    have h0 : (strLower ("")).data = [] := rfl
    simp [h0, isSubRun_nil]

theorem compute_keyword_overlap_nil (tags : List String) (d : Option String) :
    compute_keyword_overlap [] tags d = 0 := rfl

/-- C3 (amended): fit_score = min(40 * domain_hit + 35 * stack_hit +
25 * keyword_overlap, 100), where a hit is the case-insensitive
equality-or-substring match of _contains; because an empty target string
is a substring of everything, an empty domain/stack input matches any
candidate with a nonempty domain/stack list, so with no domain, no stack
and no keywords the fit score is 40*[domains nonempty] + 35*[stacks
nonempty] — 0 only when the candidate's own lists are empty too. -/
theorem c3_fit_score_formula :
    (∀ (repo : CandidateRepo) (domain stack : String) (keywords : List String),
      fit_score repo domain stack keywords
        = min (40 * (if containsHit repo.domains domain then (1 : ℚ) else 0)
            + 35 * (if containsHit repo.stackList stack then (1 : ℚ) else 0)
            + 25 * compute_keyword_overlap keywords repo.tags repo.description) 100) ∧
    (∀ values : List String, containsHit values ("") = !values.isEmpty) ∧
    (∀ repo : CandidateRepo,
      fit_score repo ("") ("") []
        = 40 * (if repo.domains.isEmpty then 0 else (1 : ℚ))
          + 35 * (if repo.stackList.isEmpty then 0 else (1 : ℚ))) := by
  refine ⟨fun repo domain stack keywords => rfl, containsHit_empty_target, ?_⟩
  intro repo
  unfold fit_score
  rw [compute_keyword_overlap_nil, containsHit_empty_target, containsHit_empty_target]
  cases hd : repo.domains.isEmpty <;> cases hs : repo.stackList.isEmpty <;>
    simp [hd, hs] <;> norm_num [min_def]

/-- C3 counterexample: a candidate with a nonempty domain list and a
nonempty stack list gets fit_score 75, not 0, when the user supplies no
domain, no stack and no keywords. -/
theorem c3_counterexample :
    fit_score
      { repo_full_name := ("r"), url := none, domains := [("web")],
        stackList := [("python")], tags := [], description := none,
        seed_domain := none } ("") ("") [] = 75 ∧ (75 : ℚ) ≠ 0 := by
  constructor
  · unfold fit_score
    rw [compute_keyword_overlap_nil, containsHit_empty_target, containsHit_empty_target]
    norm_num [min_def]
  · norm_num

end Newcomer
